import Mathlib

/-!
Verification development for the breakout game in src/main.cpp.

Embedding conventions:
* C++ floats are modelled as exact rationals (ℚ).  Every constant of the
  program is exactly representable, and on the inputs evaluated by the
  theorems below the idealized rational arithmetic agrees with binary32
  arithmetic (checked by hand where an expression could round, e.g. the
  brick-density product in SetupLevel).
* The 6×10 brick array is flattened to a list of 60 bricks in row-major
  order (index k holds row k / 10, column k % 10), so the nested
  row-outer/column-inner scan of the C++ code is exactly the list order.
* raylib is an external collaborator; CheckCollisionCircleRec,
  CheckCollisionRecs, Fade and GetRandomValue are modelled from the raylib
  sources.  GetRandomValue lo hi draws from an abstract stream of integers
  and maps each raw draw into [lo, hi], which is the documented contract.
* std::shuffle uses the separate mt19937 generator; the permutation it
  produces is passed to SetupLevel as an explicit parameter.
* std::sqrt is modelled by Rat.sqrt, which is exact on rational squares;
  theorems whose conclusion depends on the sqrt value only evaluate it on
  perfect squares.
-/

namespace Breakout

def SCREEN_WIDTH : ℚ := 800

def SCREEN_HEIGHT : ℚ := 600

def PADDLE_WIDTH : ℚ := 100

def PADDLE_HEIGHT : ℚ := 20

def PADDLE_SPEED : ℚ := 8

def BALL_RADIUS : ℚ := 10

def INITIAL_BALL_SPEED_X : ℚ := 4

def INITIAL_BALL_SPEED_Y : ℚ := -4

def MIN_BALL_SPEED_X : ℚ := 2

def BRICK_ROWS : Nat := 6

def BRICKS_PER_ROW : Nat := 10

def BRICK_WIDTH : ℚ := SCREEN_WIDTH / 10

def BRICK_HEIGHT : ℚ := 30

def BRICK_SPACING : ℚ := 2

def TIME_LIMIT_EASY : ℚ := 90

def TIME_LIMIT_MEDIUM : ℚ := 120

def TIME_LIMIT_HARD : ℚ := 150

def POWERUP_SIZE : ℚ := 20

def POWERUP_SPEED : ℚ := 2

def POWERUP_SPAWN_CHANCE : ℚ := 1/10

/-- Abstract stream of raw random draws feeding GetRandomValue. -/
abbrev Rng := List ℤ

/-- Pop one raw draw from the stream (0 when exhausted). -/
def drawRaw (r : Rng) : ℤ × Rng :=
  match r with
  | [] => (0, [])
  | x :: xs => (x, xs)

/-- Models raylib GetRandomValue lo hi: the result always lies in [lo, hi],
which is the documented contract of the generator. -/
def randValue (lo hi : ℤ) (r : Rng) : ℤ × Rng :=
  let p := drawRaw r
  (lo + p.1 % (hi - lo + 1), p.2)

structure Vector2 where
  x : ℚ
  y : ℚ
  deriving DecidableEq

structure Rectangle where
  x : ℚ
  y : ℚ
  width : ℚ
  height : ℚ
  deriving DecidableEq

structure Color where
  r : ℤ
  g : ℤ
  b : ℤ
  a : ℤ
  deriving DecidableEq

def WHITE : Color := ⟨255, 255, 255, 255⟩

def RED : Color := ⟨230, 41, 55, 255⟩

def ORANGE : Color := ⟨255, 161, 0, 255⟩

def YELLOW : Color := ⟨253, 249, 0, 255⟩

def GREEN : Color := ⟨0, 228, 48, 255⟩

def SKYBLUE : Color := ⟨102, 191, 255, 255⟩

def PURPLE : Color := ⟨200, 122, 255, 255⟩

/-- Models raylib Fade: keep the rgb channels, set alpha to 255 times the
given factor (clamped to [0,1], truncated to an integer channel). -/
def Fade (c : Color) (alpha : ℚ) : Color :=
  let al := max 0 (min alpha 1)
  ⟨c.r, c.g, c.b, ((255 : ℚ) * al).floor⟩

structure Paddle where
  rect : Rectangle
  color : Color
  deriving DecidableEq

structure Ball where
  position : Vector2
  speed : Vector2
  radius : ℚ
  active : Bool
  color : Color
  deriving DecidableEq

structure Brick where
  rect : Rectangle
  active : Bool
  hitsRequired : ℤ
  moveSpeed : ℚ
  color : Color
  deriving DecidableEq

inductive PowerUpType where
  | NONE
  | PADDLE_SIZE_UP
  | BALL_SPEED_UP
  | EXTRA_LIFE
  | MULTI_BALL
  deriving DecidableEq

structure PowerUp where
  rect : Rectangle
  type : PowerUpType
  active : Bool
  color : Color
  deriving DecidableEq

inductive GameState where
  | MENU
  | PLAYING
  | GAME_OVER
  | YOU_WIN
  deriving DecidableEq

inductive Difficulty where
  | EASY
  | MEDIUM
  | HARD
  deriving DecidableEq

/-- The global mutable variables of main.cpp, gathered into one record. -/
structure GameVars where
  paddle : Paddle
  balls : List Ball
  bricks : List Brick
  powerUps : List PowerUp
  score : ℤ
  lives : ℤ
  currentState : GameState
  paused : Bool
  activeBricks : ℤ
  countdownTimer : ℚ
  currentDifficulty : Difficulty
  currentLevel : ℤ
  selectedMenuOption : ℤ
  deriving DecidableEq

/-- Per-frame input snapshot delivered by the raylib shell. -/
structure Input where
  frameTime : ℚ
  pPressed : Bool
  bPressed : Bool
  enterPressed : Bool
  upPressed : Bool
  downPressed : Bool
  leftDown : Bool
  rightDown : Bool
  deriving DecidableEq

/-- Models raylib CheckCollisionCircleRec from the raylib source: the early
return chain compares the center offsets against the half extents expanded by
the radius, then accepts when the center is within either half extent,
falling back to a corner distance test. -/
def CheckCollisionCircleRec (center : Vector2) (radius : ℚ) (rct : Rectangle) : Prop :=
  |center.x - (rct.x + rct.width / 2)| ≤ rct.width / 2 + radius ∧
  |center.y - (rct.y + rct.height / 2)| ≤ rct.height / 2 + radius ∧
  (|center.x - (rct.x + rct.width / 2)| ≤ rct.width / 2 ∨
   |center.y - (rct.y + rct.height / 2)| ≤ rct.height / 2 ∨
   (|center.x - (rct.x + rct.width / 2)| - rct.width / 2) ^ 2 +
     (|center.y - (rct.y + rct.height / 2)| - rct.height / 2) ^ 2 ≤ radius ^ 2)

instance (center : Vector2) (radius : ℚ) (rct : Rectangle) :
    Decidable (CheckCollisionCircleRec center radius rct) := by
  unfold CheckCollisionCircleRec
  exact inferInstance

/-- Models raylib CheckCollisionRecs: axis-aligned rectangle overlap. -/
def CheckCollisionRecs (a c : Rectangle) : Prop :=
  a.x < c.x + c.width ∧ a.x + a.width > c.x ∧
    a.y < c.y + c.height ∧ a.y + a.height > c.y

instance (a c : Rectangle) : Decidable (CheckCollisionRecs a c) := by
  unfold CheckCollisionRecs
  exact inferInstance

/-- ApplyPowerUp from main.cpp.  MULTI_BALL clones balls[0] twice, flipping
the horizontal speed of the first clone only and sending both clones upward. -/
def ApplyPowerUp (t : PowerUpType) (g : GameVars) : GameVars :=
  match t with
  | PowerUpType.PADDLE_SIZE_UP =>
    let w := min (g.paddle.rect.width * (6/5)) (PADDLE_WIDTH * 2)
    let nx := max 0 (min g.paddle.rect.x (SCREEN_WIDTH - w))
    {g with paddle := {g.paddle with rect := {g.paddle.rect with width := w, x := nx}}}
  | PowerUpType.BALL_SPEED_UP =>
    let speedUp := fun (b : Ball) =>
      let sx := b.speed.x * (6/5)
      let sy := b.speed.y * (6/5)
      let sx2 := if |sx| < MIN_BALL_SPEED_X then
          (if sx ≥ 0 then MIN_BALL_SPEED_X else -MIN_BALL_SPEED_X)
        else sx
      {b with speed := ⟨sx2, sy⟩}
    {g with balls := g.balls.map speedUp}
  | PowerUpType.EXTRA_LIFE => {g with lives := g.lives + 1}
  | PowerUpType.MULTI_BALL =>
    match g.balls with
    | [] => g
    | b0 :: _ =>
      let c1 : Ball := {b0 with speed := ⟨-b0.speed.x, -|b0.speed.y|⟩, active := true}
      let c2 : Ball := {b0 with speed := ⟨b0.speed.x, -|b0.speed.y|⟩, active := true}
      {g with balls := g.balls ++ [c1, c2]}
  | PowerUpType.NONE => g

/-- SpawnPowerUp from main.cpp: roll the spawn chance, then a uniform kind. -/
def SpawnPowerUp (pos : Vector2) (g : GameVars) (r : Rng) : GameVars × Rng :=
  let p1 := randValue 0 100 r
  if (p1.1 : ℚ) / 100 > POWERUP_SPAWN_CHANCE then (g, p1.2)
  else
    let p2 := randValue 1 4 p1.2
    let ty := if p2.1 = 1 then PowerUpType.PADDLE_SIZE_UP
      else if p2.1 = 2 then PowerUpType.BALL_SPEED_UP
      else if p2.1 = 3 then PowerUpType.EXTRA_LIFE
      else PowerUpType.MULTI_BALL
    let col := match ty with
      | PowerUpType.PADDLE_SIZE_UP => SKYBLUE
      | PowerUpType.BALL_SPEED_UP => RED
      | PowerUpType.EXTRA_LIFE => GREEN
      | PowerUpType.MULTI_BALL => PURPLE
      | PowerUpType.NONE => WHITE
    ({g with powerUps := g.powerUps ++
      [{rect := ⟨pos.x, pos.y, POWERUP_SIZE, POWERUP_SIZE⟩, type := ty,
        active := true, color := col}]}, p2.2)

/-- Body of the UpdatePowerUps loop of main.cpp: each power-up falls, is
applied and removed on paddle contact, and is removed below the screen;
entries that became inactive are erased in the same pass. -/
def UpdatePowerUpsAux (g : GameVars) : List PowerUp → List PowerUp × GameVars
  | [] => ([], g)
  | p :: rest =>
    if p.active then
      let p2 := {p with rect := {p.rect with y := p.rect.y + POWERUP_SPEED}}
      if CheckCollisionRecs p2.rect g.paddle.rect then
        UpdatePowerUpsAux (ApplyPowerUp p2.type g) rest
      else if p2.rect.y > SCREEN_HEIGHT then
        UpdatePowerUpsAux g rest
      else
        let res := UpdatePowerUpsAux g rest
        (p2 :: res.1, res.2)
    else UpdatePowerUpsAux g rest

/-- UpdatePowerUps from main.cpp. -/
def UpdatePowerUps (g : GameVars) : GameVars :=
  let res := UpdatePowerUpsAux g g.powerUps
  {res.2 with powerUps := res.1}

/-- ResetBallsAndPaddle from main.cpp: recenter the paddle and replace the
ball list with a single fresh ball just above the paddle, with a random
horizontal direction. -/
def ResetBallsAndPaddle (g : GameVars) (r : Rng) : GameVars × Rng :=
  let pr0 := g.paddle.rect
  let pr := {pr0 with x := (SCREEN_WIDTH - pr0.width) / 2,
                      y := SCREEN_HEIGHT - pr0.height - 30}
  let baseSpeedX := match g.currentDifficulty with
    | Difficulty.EASY => INITIAL_BALL_SPEED_X * (4/5)
    | Difficulty.MEDIUM => INITIAL_BALL_SPEED_X * (6/5)
    | Difficulty.HARD => INITIAL_BALL_SPEED_X * (3/2)
  let sy := match g.currentDifficulty with
    | Difficulty.EASY => INITIAL_BALL_SPEED_Y * (4/5)
    | Difficulty.MEDIUM => INITIAL_BALL_SPEED_Y * (6/5)
    | Difficulty.HARD => INITIAL_BALL_SPEED_Y * (3/2)
  let p := randValue 0 1 r
  let sx := baseSpeedX * (if p.1 ≠ 0 then 1 else -1)
  let ball : Ball :=
    { position := ⟨pr.x + pr.width / 2, pr.y - BALL_RADIUS - 5⟩,
      speed := ⟨sx, sy⟩, radius := BALL_RADIUS, active := true, color := WHITE }
  ({g with paddle := {g.paddle with rect := pr}, balls := [ball]}, p.2)

/-- Row index of the flattened brick at index k. -/
def brickRow (k : Nat) : Nat := k / BRICKS_PER_ROW

/-- Brick color chosen cyclically by row, as in SetupLevel. -/
def rowColor (i : Nat) : Color :=
  if i % 4 = 0 then RED
  else if i % 4 = 1 then ORANGE
  else if i % 4 = 2 then YELLOW
  else GREEN

/-- Fresh zero-initialized brick with the grid rectangle of cell k, as
assigned by the first nested loop of SetupLevel. -/
def initBrick (k : Nat) : Brick :=
  { rect := { x := (k % BRICKS_PER_ROW : Nat) * BRICK_WIDTH + BRICK_SPACING / 2,
              y := 50 + (k / BRICKS_PER_ROW : Nat) * BRICK_HEIGHT + BRICK_SPACING / 2,
              width := BRICK_WIDTH - BRICK_SPACING,
              height := BRICK_HEIGHT - BRICK_SPACING },
    active := false, hitsRequired := 0, moveSpeed := 0, color := ⟨0, 0, 0, 0⟩ }

/-- The fully inactive 60-cell grid built by SetupLevel before activation. -/
def baseBricks : List Brick := (List.range (BRICK_ROWS * BRICKS_PER_ROW)).map initBrick

/-- Activation of one selected cell in SetupLevel: set the active flag, the
difficulty-dependent hit count, the move speed of last-active-row bricks in
HARD mode, and the row color. -/
def activateOne (diff : Difficulty) (activeRows : Nat) (bricks : List Brick)
    (idx : Nat) (r : Rng) : List Brick × Rng :=
  match bricks[idx]? with
  | none => (bricks, r)
  | some b =>
    let ph : ℤ × Rng := match diff with
      | Difficulty.EASY => (1, r)
      | Difficulty.MEDIUM => randValue 1 2 r
      | Difficulty.HARD => randValue 1 3 r
    let pm : ℚ × Rng :=
      if diff = Difficulty.HARD ∧ brickRow idx = activeRows - 1 then
        let d := randValue 0 100 ph.2
        (if d.1 < 30 then 2 else 0, d.2)
      else (0, ph.2)
    (bricks.set idx
      {b with active := true, hitsRequired := ph.1, moveSpeed := pm.1, color := rowColor (brickRow idx)},
      pm.2)

/-- The activation loop of SetupLevel over the selected shuffled cells,
incrementing the activeBricks counter once per iteration. -/
def activateBricks (diff : Difficulty) (activeRows : Nat) :
    List Nat → List Brick → ℤ → Rng → List Brick × ℤ × Rng
  | [], bricks, cnt, r => (bricks, cnt, r)
  | idx :: rest, bricks, cnt, r =>
    let p := activateOne diff activeRows bricks idx r
    activateBricks diff activeRows rest p.1 (cnt + 1) p.2

/-- Number of rows that receive bricks, per difficulty. -/
def activeRowsFor (diff : Difficulty) : Nat :=
  match diff with
  | Difficulty.EASY => BRICK_ROWS - 3
  | Difficulty.MEDIUM => BRICK_ROWS - 1
  | Difficulty.HARD => BRICK_ROWS

/-- Difficulty-indexed paddle width multiplier of SetupLevel. -/
def paddleWidthFor (diff : Difficulty) : ℚ :=
  match diff with
  | Difficulty.EASY => PADDLE_WIDTH * (3/2)
  | Difficulty.MEDIUM => PADDLE_WIDTH * (7/10)
  | Difficulty.HARD => PADDLE_WIDTH * (1/2)

/-- The paddle as SetupLevel builds it before recentering. -/
def setupPaddle (diff : Difficulty) : Paddle :=
  { rect := { x := (SCREEN_WIDTH - paddleWidthFor diff) / 2,
              y := SCREEN_HEIGHT - PADDLE_HEIGHT - 30,
              width := paddleWidthFor diff, height := PADDLE_HEIGHT }, color := WHITE }

/-- Difficulty-indexed countdown duration of SetupLevel. -/
def timeLimitFor (diff : Difficulty) : ℚ :=
  match diff with
  | Difficulty.EASY => TIME_LIMIT_EASY
  | Difficulty.MEDIUM => TIME_LIMIT_MEDIUM
  | Difficulty.HARD => TIME_LIMIT_HARD

/-- SetupLevel from main.cpp.  The shuffled candidate list produced by
std::shuffle is passed in as perm (flattened row-major cell indices).  The
C++ int cast of the density product truncates toward zero; the product is
nonnegative, so it is modelled as the floor. -/
def SetupLevel (diff : Difficulty) (perm : List Nat) (g : GameVars) (r : Rng) :
    GameVars × Rng :=
  let p1 := ResetBallsAndPaddle {g with paddle := setupPaddle diff} r
  let p2 := randValue 70 90 p1.2
  let numBricks : ℤ := ⌊(perm.length : ℚ) * ((p2.1 : ℚ) / 100)⌋
  let act := activateBricks diff (activeRowsFor diff) (perm.take numBricks.toNat)
    baseBricks 0 p2.2
  ({p1.1 with bricks := act.1, activeBricks := act.2.1, countdownTimer := timeLimitFor diff},
    act.2.2)

/-- InitGame from main.cpp. -/
def InitGame (perm : List Nat) (g : GameVars) (r : Rng) : GameVars × Rng :=
  let g1 := {g with score := 0, lives := 3, currentLevel := 1, paused := false, powerUps := [], balls := []}
  SetupLevel g1.currentDifficulty perm g1 r

/-- Difficulty decoded from the menu cursor, as the C++ static cast does. -/
def difficultyOfInt (n : ℤ) : Difficulty :=
  if n = 0 then Difficulty.EASY
  else if n = 1 then Difficulty.MEDIUM
  else Difficulty.HARD

/-- Successor difficulty used by the YOU_WIN advance (cast of the index + 1). -/
def nextDifficulty (d : Difficulty) : Difficulty :=
  match d with
  | Difficulty.EASY => Difficulty.MEDIUM
  | Difficulty.MEDIUM => Difficulty.HARD
  | Difficulty.HARD => Difficulty.HARD

/-- UpdateMenu from main.cpp. -/
def UpdateMenu (perm : List Nat) (g : GameVars) (inp : Input) (r : Rng) :
    GameVars × Rng :=
  let g1 := if inp.upPressed then
      {g with selectedMenuOption := (g.selectedMenuOption - 1 + 3) % 3} else g
  let g2 := if inp.downPressed then
      {g1 with selectedMenuOption := (g1.selectedMenuOption + 1) % 3} else g1
  if inp.enterPressed then
    let g3 := {g2 with currentDifficulty := difficultyOfInt g2.selectedMenuOption}
    let p := InitGame perm g3 r
    ({p.1 with currentState := GameState.PLAYING}, p.2)
  else (g2, r)

/-- Collision test of the brick scan, matching the condition of the nested
loop in HandleBrickCollision. -/
def hitPred (ball : Ball) (b : Brick) : Prop :=
  b.active = true ∧ CheckCollisionCircleRec ball.position ball.radius b.rect

instance (ball : Ball) (b : Brick) : Decidable (hitPred ball b) := by
  unfold hitPred
  exact inferInstance

/-- Damage applied to the hit brick: decrement hitsRequired, deactivate at
zero, otherwise fade the color. -/
def damageBrick (b : Brick) : Brick :=
  let h := b.hitsRequired - 1
  if h ≤ 0 then {b with hitsRequired := h, active := false}
  else {b with hitsRequired := h, color := Fade b.color (4/5)}

/-- The early-exit nested loop of HandleBrickCollision flattened over the
row-major brick list: damage the first hit brick and stop, returning the
pre-damage brick that was hit. -/
def scanBricks (ball : Ball) : List Brick → List Brick × Option Brick
  | [] => ([], none)
  | b :: rest =>
    if hitPred ball b then (damageBrick b :: rest, some b)
    else
      let res := scanBricks ball rest
      (b :: res.1, res.2)

/-- Axis choice of the brick reflection, comparing the center offset against
the half extents. -/
def brickReflectRaw (b : Brick) (ball : Ball) : Ball :=
  if |ball.position.x - (b.rect.x + b.rect.width / 2)| > b.rect.width / 2 ∨
      |ball.position.y - (b.rect.y + b.rect.height / 2)| > b.rect.height / 2 then
    (if |ball.position.x - (b.rect.x + b.rect.width / 2)| >
        |ball.position.y - (b.rect.y + b.rect.height / 2)| then
      {ball with speed := ⟨-ball.speed.x, ball.speed.y⟩}
     else {ball with speed := ⟨ball.speed.x, -ball.speed.y⟩})
  else {ball with speed := ⟨ball.speed.x, -ball.speed.y⟩}

/-- Reflection of the ball off the hit brick: choose the axis, then re-apply
the horizontal minimum-speed floor. -/
def reflectOffBrick (b : Brick) (ball : Ball) : Ball :=
  if |(brickReflectRaw b ball).speed.x| < MIN_BALL_SPEED_X then
    {(brickReflectRaw b ball) with speed :=
      ⟨(if (brickReflectRaw b ball).speed.x ≥ 0 then MIN_BALL_SPEED_X
        else -MIN_BALL_SPEED_X),
        (brickReflectRaw b ball).speed.y⟩}
  else (brickReflectRaw b ball)

/-- HandleBrickCollision from main.cpp.  The Bool result mirrors the C++
return value: whether some brick was resolved. -/
def HandleBrickCollision (g : GameVars) (ball : Ball) (r : Rng) :
    GameVars × Ball × Rng × Bool :=
  let res := scanBricks ball g.bricks
  match res.2 with
  | none => ({g with bricks := res.1}, ball, r, false)
  | some hb =>
    let g2 := {g with bricks := res.1}
    let p :=
      if hb.hitsRequired - 1 ≤ 0 then
        SpawnPowerUp ⟨hb.rect.x + hb.rect.width / 2, hb.rect.y + hb.rect.height / 2⟩
          {g2 with activeBricks := g2.activeBricks - 1, score := g2.score + 10} r
      else (g2, r)
    (p.1, reflectOffBrick hb ball, p.2, true)

/-- Euler integration step of the ball position. -/
def integrateBall (b : Ball) : Ball :=
  {b with position := ⟨b.position.x + b.speed.x, b.position.y + b.speed.y⟩}

/-- Side wall reflection of UpdateGame: negate the horizontal speed when the
horizontal extent crosses either side boundary. -/
def wallBounceX (b : Ball) : Ball :=
  if b.position.x + b.radius ≥ SCREEN_WIDTH ∨ b.position.x - b.radius ≤ 0
    then {b with speed := ⟨-b.speed.x, b.speed.y⟩} else b

/-- Side and top wall reflection of UpdateGame: the side check, then negate
the vertical speed when the top is crossed. -/
def wallBounce (b : Ball) : Ball :=
  if (wallBounceX b).position.y - (wallBounceX b).radius ≤ 0
    then {(wallBounceX b) with speed := ⟨(wallBounceX b).speed.x, -(wallBounceX b).speed.y⟩}
    else (wallBounceX b)

/-- Bottom boundary check of UpdateGame: deactivate a ball past the bottom. -/
def bottomCheck (b : Ball) : Ball :=
  if b.position.y + b.radius ≥ SCREEN_HEIGHT then {b with active := false} else b

/-- Retargeted horizontal speed of a paddle bounce: outside the central
deadzone of width 2 times shiftAmount = 3/10 the target is six tenths of the
speed magnitude toward the side hit; inside it scales linearly with the
offset from the paddle center. -/
def paddleTarget (pad : Paddle) (b : Ball) : ℚ :=
  if (b.position.x - pad.rect.x) / pad.rect.width < 1/2 - 3/10 then
    -Rat.sqrt (b.speed.x ^ 2 + b.speed.y ^ 2) * (3/5)
  else if (b.position.x - pad.rect.x) / pad.rect.width > 1/2 + 3/10 then
    Rat.sqrt (b.speed.x ^ 2 + b.speed.y ^ 2) * (3/5)
  else
    ((b.position.x - pad.rect.x) / pad.rect.width - 1/2) * 2 *
      Rat.sqrt (b.speed.x ^ 2 + b.speed.y ^ 2) * (1/2)

/-- Minimum-floor snap of the paddle bounce: when the target is under the
floor, take the signed floor times a random jitter factor drawn from
[-10, 10] percent (consuming one draw); otherwise keep the target and the
stream. -/
def jitterFloorX (t : ℚ) (r : Rng) : ℚ × Rng :=
  if |t| < MIN_BALL_SPEED_X then
    ((if t ≥ 0 then MIN_BALL_SPEED_X else -MIN_BALL_SPEED_X) *
      (1 + ((randValue (-10) 10 r).1 : ℚ) / 100), (randValue (-10) 10 r).2)
  else (t, r)

/-- Paddle collision step of UpdateGame: on a downward hit, force the ball
upward, retarget the horizontal speed from the hit offset with the jittered
floor, and nudge the ball to sit just above the paddle surface. -/
def paddleBounce (pad : Paddle) (b : Ball) (r : Rng) : Ball × Rng :=
  if CheckCollisionCircleRec b.position b.radius pad.rect ∧ b.speed.y > 0 then
    ({b with speed := ⟨(jitterFloorX (paddleTarget pad b) r).1, -|b.speed.y|⟩, position := ⟨b.position.x, pad.rect.y - b.radius - 1/10⟩},
      (jitterFloorX (paddleTarget pad b) r).2)
  else (b, r)

/-- One full per-ball iteration of the UpdateGame ball loop: integrate,
walls, bottom, paddle, bricks. -/
def ballStep (g : GameVars) (ball : Ball) (r : Rng) : GameVars × Ball × Rng :=
  let b1 := bottomCheck (wallBounce (integrateBall ball))
  let p := paddleBounce g.paddle b1 r
  let res := HandleBrickCollision g p.1 p.2
  (res.1, res.2.1, res.2.2.1)

/-- The ball loop of UpdateGame over the ball list, accumulating whether any
ball was active when visited (the anyBallActive flag). -/
def processBalls (g : GameVars) (r : Rng) :
    List Ball → List Ball × GameVars × Rng × Bool
  | [] => ([], g, r, false)
  | ball :: rest =>
    if ball.active then
      let s := ballStep g ball r
      let res := processBalls s.1 s.2.2 rest
      (s.2.1 :: res.1, res.2.1, res.2.2.1, true)
    else
      let res := processBalls g r rest
      (ball :: res.1, res.2)

/-- Horizontal translation and wall reversal of one moving brick in HARD
difficulty. -/
def moveBrick (b : Brick) : Brick :=
  if b.active ∧ b.moveSpeed ≠ 0 then
    let b1 := {b with rect := {b.rect with x := b.rect.x + b.moveSpeed}}
    if b1.rect.x ≤ 0 ∨ b1.rect.x + b1.rect.width ≥ SCREEN_WIDTH then
      {b1 with moveSpeed := -b1.moveSpeed}
    else b1
  else b

/-- Countdown phase of a PLAYING tick: subtract the frame time; on expiry
lose a life, deactivate every ball, and either transition to GAME_OVER or
reset the balls and paddle. -/
def timerPhase (g : GameVars) (dt : ℚ) (r : Rng) : GameVars × Rng :=
  let g1 := {g with countdownTimer := g.countdownTimer - dt}
  if g1.countdownTimer ≤ 0 then
    let g2 : GameVars := {g1 with lives := g1.lives - 1, balls := g1.balls.map (fun b => {b with active := false})}
    if g2.lives ≤ 0 then ({g2 with currentState := GameState.GAME_OVER}, r)
    else ResetBallsAndPaddle g2 r
  else (g1, r)

/-- Paddle keyboard movement and screen clamp of a PLAYING tick. -/
def paddleMovePhase (g : GameVars) (inp : Input) : GameVars :=
  let x0 := g.paddle.rect.x
  let x1 := if inp.leftDown then x0 - PADDLE_SPEED else x0
  let x2 := if inp.rightDown then x1 + PADDLE_SPEED else x1
  let x3 := max 0 (min x2 (SCREEN_WIDTH - g.paddle.rect.width))
  {g with paddle := {g.paddle with rect := {g.paddle.rect with x := x3}}}

/-- Life loss when no ball was active during the ball loop. -/
def lifeLossPhase (g : GameVars) (anyActive : Bool) (r : Rng) : GameVars × Rng :=
  if anyActive then (g, r)
  else
    let g1 := {g with lives := g.lives - 1}
    if g1.lives ≤ 0 then ({g1 with currentState := GameState.GAME_OVER}, r)
    else ResetBallsAndPaddle g1 r

/-- Moving-brick phase: only in HARD difficulty. -/
def movingBrickPhase (g : GameVars) : GameVars :=
  if g.currentDifficulty = Difficulty.HARD then {g with bricks := g.bricks.map moveBrick}
  else g

/-- Win check at the end of a PLAYING tick. -/
def winCheckPhase (g : GameVars) : GameVars :=
  if g.activeBricks ≤ 0 then {g with currentState := GameState.YOU_WIN} else g

/-- The unpaused PLAYING body of UpdateGame, phase by phase in source order. -/
def playingStep (g : GameVars) (inp : Input) (r : Rng) : GameVars × Rng :=
  let t := timerPhase g inp.frameTime r
  let g1 := paddleMovePhase t.1 inp
  let pb := processBalls g1 t.2 g1.balls
  let g2 := {pb.2.1 with balls := pb.1}
  let ll := lifeLossPhase g2 pb.2.2.2 pb.2.2.1
  let g3 := movingBrickPhase ll.1
  let g4 := UpdatePowerUps g3
  (winCheckPhase g4, ll.2)

/-- The GAME_OVER and YOU_WIN confirm handling of UpdateGame. -/
def endScreenStep (perm : List Nat) (g : GameVars) (inp : Input) (r : Rng) :
    GameVars × Rng :=
  if inp.enterPressed then
    if g.currentState = GameState.YOU_WIN ∧ g.currentDifficulty ≠ Difficulty.HARD then
      let g1 := {g with currentLevel := g.currentLevel + 1, currentDifficulty := nextDifficulty g.currentDifficulty}
      let p := SetupLevel g1.currentDifficulty perm g1 r
      ({p.1 with score := p.1.score + 100, currentState := GameState.PLAYING, paused := false}, p.2)
    else
      ({g with currentState := GameState.MENU, selectedMenuOption := 0, paused := false}, r)
  else (g, r)

/-- UpdateGame from main.cpp: one simulation tick.  perm is the permutation
std::shuffle would produce if level setup runs this tick. -/
def UpdateGame (perm : List Nat) (g : GameVars) (inp : Input) (r : Rng) :
    GameVars × Rng :=
  match g.currentState with
  | GameState.MENU => UpdateMenu perm g inp r
  | GameState.PLAYING =>
    let g1 := if inp.pPressed then {g with paused := !g.paused} else g
    if inp.bPressed then
      ({g1 with currentState := GameState.MENU, selectedMenuOption := 0, paused := false, powerUps := []}, r)
    else if g1.paused then (g1, r)
    else playingStep g1 inp r
  | GameState.GAME_OVER => endScreenStep perm g inp r
  | GameState.YOU_WIN => endScreenStep perm g inp r

/-- Iterated ticks with one input per tick. -/
def runTicks (perm : List Nat) : List Input → GameVars → Rng → GameVars × Rng
  | [], g, r => (g, r)
  | inp :: rest, g, r =>
    let p := UpdateGame perm g inp r
    runTicks perm rest p.1 p.2

/-- Number of bricks whose active flag is set. -/
def countActive (bs : List Brick) : Nat := bs.countP (fun b => b.active)

/-- The minimum-horizontal-speed floor as a standalone function: snap a
magnitude below MIN_BALL_SPEED_X to the signed floor, used to state the
reflection theorems. -/
def minSpeedFloor (q : ℚ) : ℚ :=
  if |q| < MIN_BALL_SPEED_X then
    (if q ≥ 0 then MIN_BALL_SPEED_X else -MIN_BALL_SPEED_X)
  else q

/-!
Concrete fixtures used by witnesses and counterexamples.
-/

/-- Paddle as produced by an EASY setup after recentering, but with the base
width for easy concrete arithmetic. -/
def stdPaddle : Paddle := {rect := ⟨350, 550, 100, 20⟩, color := WHITE}

/-- Frame input with no key activity and a 60 fps frame time. -/
def quietInput : Input :=
  { frameTime := 1/60, pPressed := false, bPressed := false, enterPressed := false,
    upPressed := false, downPressed := false, leftDown := false, rightDown := false }

/-- Grid cell 0 activated with one hit required, as EASY setup produces. -/
def brickOne : Brick := {(initBrick 0) with active := true, hitsRequired := 1, color := RED}

/-- Grid cell 0 activated with two hits required. -/
def brickTwo : Brick := {(initBrick 0) with active := true, hitsRequired := 2, color := RED}

/-- A mid-court PLAYING state with one active brick and no balls yet. -/
def baseVars : GameVars :=
  { paddle := stdPaddle, balls := [], bricks := [brickOne], powerUps := [],
    score := 0, lives := 3, currentState := GameState.PLAYING, paused := false,
    activeBricks := 1, countdownTimer := 50, currentDifficulty := Difficulty.EASY,
    currentLevel := 1, selectedMenuOption := 0 }

/-- Ball moving down-right in mid court, away from paddle and bricks. -/
def midBall : Ball :=
  { position := ⟨400, 300⟩, speed := ⟨3, -3⟩, radius := 10, active := true, color := WHITE }

/-- Ball sitting one step short of the right wall, moving toward it. -/
def wallBall : Ball := {midBall with position := ⟨795, 300⟩, speed := ⟨4, 2⟩}

/-- PLAYING state whose only ball is about to penetrate the right wall. -/
def gWall : GameVars := {baseVars with balls := [wallBall]}

/-- Vertical speed of the fresh ball created by ResetBallsAndPaddle, as a
standalone function of the difficulty. -/
def resetSpeedY (d : Difficulty) : ℚ :=
  match d with
  | Difficulty.EASY => INITIAL_BALL_SPEED_Y * (4/5)
  | Difficulty.MEDIUM => INITIAL_BALL_SPEED_Y * (6/5)
  | Difficulty.HARD => INITIAL_BALL_SPEED_Y * (3/2)

/-- Input predicate of the timer-cascade claim: the pause toggle and the
menu-return key are up and the frame time is nonnegative. -/
def quietKeys (inp : Input) : Prop :=
  inp.pPressed = false ∧ inp.bPressed = false ∧ 0 ≤ inp.frameTime

/-- State predicate of the timer-cascade claim: an unpaused PLAYING state
whose countdown has already run out, with at least one life and at least one
active brick left, no falling power-ups, a paddle of plausible height, and
every brick inside the upper playfield. -/
def cascadeInv (g : GameVars) : Prop :=
  g.currentState = GameState.PLAYING ∧ g.paused = false ∧
  g.countdownTimer ≤ 0 ∧ 1 ≤ g.lives ∧ 0 < g.activeBricks ∧
  g.powerUps = [] ∧ 0 ≤ g.paddle.rect.height ∧ g.paddle.rect.height ≤ 100 ∧
  ∀ b ∈ g.bricks, 0 ≤ b.rect.height ∧ b.rect.y + b.rect.height ≤ 400

/-- PLAYING state whose countdown has just expired, on the last life. -/
def cascVars : GameVars := {baseVars with countdownTimer := -1/10, lives := 1}

/-- Falling extra-life power-up one step above the recentered paddle. -/
def cascPU : PowerUp :=
  { rect := ⟨390, 535, 20, 20⟩, type := PowerUpType.EXTRA_LIFE, active := true,
    color := GREEN }

/-- PLAYING state whose countdown has just expired with two lives left and
the extra-life power-up about to land on the paddle. -/
def cascVars2 : GameVars :=
  {baseVars with countdownTimer := -1/10, lives := 2, powerUps := [cascPU]}

/-!
Helper lemmas.
-/

theorem ratSqrt_25 : Rat.sqrt 25 = 5 := by
  have h3 : Int.sqrt 25 = 5 := by
    have h := Int.sqrt_eq (5 : ℤ)
    rw [show (5 : ℤ) * 5 = 25 by norm_num] at h
    rw [h]
    rfl
  have h4 : Nat.sqrt 1 = 1 := by
    have h := Nat.sqrt_eq 1
    rw [show 1 * 1 = 1 by norm_num] at h
    exact h
  have h1 : ((25 : ℚ)).num = 25 := rfl
  have h2 : ((25 : ℚ)).den = 1 := rfl
  rw [Rat.sqrt, h1, h2, h3, h4]
  norm_num

/-!
Claim C9.
-/

/-- C9: a PLAYING tick entered with the paused flag set and with neither the
pause-toggle nor the return-to-menu input pressed leaves the entire game
state (and the random stream) unchanged. -/
theorem C9_paused_tick_noop (perm : List Nat) (g : GameVars) (inp : Input) (r : Rng)
    (hs : g.currentState = GameState.PLAYING) (hp : g.paused = true)
    (hkp : inp.pPressed = false) (hkb : inp.bPressed = false) :
    UpdateGame perm g inp r = (g, r) := by
  unfold UpdateGame
  rw [hs]
  simp [hkp, hkb, hp]

/-- Witness for C9 at a concrete paused state. -/
theorem C9_paused_tick_noop_witness :
    UpdateGame [] {baseVars with paused := true} quietInput [] =
      ({baseVars with paused := true}, []) :=
  C9_paused_tick_noop [] {baseVars with paused := true} quietInput [] rfl rfl rfl rfl

/-!
Claim C7.
-/

/-- Counterexample to C7: when the ball list holds an inactive ball in front
of the single active ball, the multi-ball power-up clones the inactive front
ball, so the two new balls do not carry the active ball's position or speed,
contrary to the claim. -/
theorem C7_claim_false :
    (({baseVars with
        balls := [{midBall with position := ⟨100, 500⟩, speed := ⟨1, 1⟩, active := false},
          midBall]} : GameVars).balls.filter (fun b => b.active)).length = 1 ∧
    (({baseVars with
        balls := [{midBall with position := ⟨100, 500⟩, speed := ⟨1, 1⟩, active := false},
          midBall]} : GameVars).balls.filter (fun b => b.active)) = [midBall] ∧
    ((ApplyPowerUp PowerUpType.MULTI_BALL {baseVars with
        balls := [{midBall with position := ⟨100, 500⟩, speed := ⟨1, 1⟩, active := false},
          midBall]}).balls.drop 2).map (fun b => b.position) =
      [⟨100, 500⟩, ⟨100, 500⟩] ∧
    midBall.position = ⟨400, 300⟩ := by
  refine ⟨?_, ?_, ?_, rfl⟩
  · simp [midBall]
  · simp [midBall]
  · simp [ApplyPowerUp]

/-- C7 amended: when the ball list consists of exactly one ball, which is
active with velocity (vx, vy), the multi-ball power-up appends exactly two
active balls at the original position, one with velocity (-vx, -abs vy) and
one with (vx, -abs vy), and the original ball is unchanged; no other state
component changes. -/
theorem C7_multiball_amended (g : GameVars) (b : Ball)
    (hb : g.balls = [b]) (ha : b.active = true) :
    (ApplyPowerUp PowerUpType.MULTI_BALL g).balls =
      [b, {b with speed := ⟨-b.speed.x, -|b.speed.y|⟩, active := true},
        {b with speed := ⟨b.speed.x, -|b.speed.y|⟩, active := true}] ∧
    (ApplyPowerUp PowerUpType.MULTI_BALL g) =
      {g with balls := (ApplyPowerUp PowerUpType.MULTI_BALL g).balls} := by
  constructor
  · simp [ApplyPowerUp, hb]
  · simp [ApplyPowerUp, hb]

/-- Witness for the amended C7 at a concrete single-ball state. -/
theorem C7_multiball_amended_witness :
    (ApplyPowerUp PowerUpType.MULTI_BALL {baseVars with balls := [midBall]}).balls =
      [midBall, {midBall with speed := ⟨-midBall.speed.x, -|midBall.speed.y|⟩, active := true},
        {midBall with speed := ⟨midBall.speed.x, -|midBall.speed.y|⟩, active := true}] :=
  (C7_multiball_amended {baseVars with balls := [midBall]} midBall rfl rfl).1

/-!
Claim C1.
-/

/-- Counterexample to C1: a dead-center paddle hit makes the retarget 0, the
floor engages, and the jitter draw of -10 percent scales the floored speed
down to 9/5, which is below MIN_BALL_SPEED_X. -/
theorem C1_claim_false :
    (paddleBounce stdPaddle {midBall with position := ⟨400, 546⟩, speed := ⟨3, 4⟩} [0]).1.speed.y = -4 ∧
    (paddleBounce stdPaddle {midBall with position := ⟨400, 546⟩, speed := ⟨3, 4⟩} [0]).1.speed.x = 9/5 ∧
    |(paddleBounce stdPaddle {midBall with position := ⟨400, 546⟩, speed := ⟨3, 4⟩} [0]).1.speed.x| <
      MIN_BALL_SPEED_X := by
  have hx : (paddleBounce stdPaddle {midBall with position := ⟨400, 546⟩, speed := ⟨3, 4⟩} [0]).1.speed.x = 9/5 := by
    norm_num [paddleBounce, paddleTarget, jitterFloorX, CheckCollisionCircleRec, stdPaddle,
      midBall, randValue, drawRaw, ratSqrt_25, MIN_BALL_SPEED_X, Int.zero_emod]
  refine ⟨?_, hx, ?_⟩
  · norm_num [paddleBounce, CheckCollisionCircleRec, stdPaddle, midBall, randValue, drawRaw,
      ratSqrt_25, MIN_BALL_SPEED_X]
  · rw [hx, abs_of_pos (by norm_num : (0 : ℚ) < 9/5)]
    norm_num [MIN_BALL_SPEED_X]

/-- Helper: the modelled GetRandomValue always returns a value in range. -/
theorem randValue_bounds (lo hi : ℤ) (r : Rng) (h : lo ≤ hi) :
    lo ≤ (randValue lo hi r).1 ∧ (randValue lo hi r).1 ≤ hi := by
  unfold randValue
  simp only
  have h1 := Int.emod_nonneg (drawRaw r).1 (by omega : hi - lo + 1 ≠ 0)
  have h2 := Int.emod_lt_of_pos (drawRaw r).1 (by omega : (0 : ℤ) < hi - lo + 1)
  omega

/-- Helper: the jittered floor value stays within ten percent of the floor,
so its magnitude is at least nine tenths of MIN_BALL_SPEED_X. -/
theorem jitterFloor_bound (t : ℚ) (j : ℤ) (hj : -10 ≤ j ∧ j ≤ 10) :
    9/10 * MIN_BALL_SPEED_X ≤
      |(if t ≥ 0 then MIN_BALL_SPEED_X else -MIN_BALL_SPEED_X) * (1 + (j : ℚ) / 100)| := by
  have hlo : (-10 : ℚ) ≤ (j : ℚ) := by exact_mod_cast hj.1
  have hpos : (0 : ℚ) < 1 + (j : ℚ) / 100 := by linarith
  rw [abs_mul]
  have h1 : |(if t ≥ 0 then MIN_BALL_SPEED_X else -MIN_BALL_SPEED_X)| = MIN_BALL_SPEED_X := by
    split <;> norm_num [MIN_BALL_SPEED_X]
  rw [h1, abs_of_pos hpos]
  simp only [MIN_BALL_SPEED_X]
  linarith

/-- Helper: the brick reflection always ends with the horizontal floor, so
the outgoing horizontal speed magnitude is at least MIN_BALL_SPEED_X. -/
theorem reflectOffBrick_min (b : Brick) (ball : Ball) :
    MIN_BALL_SPEED_X ≤ |(reflectOffBrick b ball).speed.x| := by
  unfold reflectOffBrick
  split
  next h =>
    split
    next h2 => norm_num [MIN_BALL_SPEED_X]
    next h2 => norm_num [MIN_BALL_SPEED_X]
  next h =>
    push_neg at h
    exact h

/-- C1 amended: wall reflection preserves the horizontal speed magnitude;
brick resolution always restores the full floor MIN_BALL_SPEED_X; a paddle
bounce guarantees only nine tenths of MIN_BALL_SPEED_X, because the random
jitter of up to -10 percent multiplies the engaged floor. -/
theorem C1_min_speed_amended :
    (∀ b : Ball, |(wallBounce b).speed.x| = |b.speed.x|) ∧
    (∀ (g : GameVars) (ball : Ball) (r : Rng),
      (HandleBrickCollision g ball r).2.2.2 = true →
        MIN_BALL_SPEED_X ≤ |(HandleBrickCollision g ball r).2.1.speed.x|) ∧
    (∀ (pad : Paddle) (b : Ball) (r : Rng),
      CheckCollisionCircleRec b.position b.radius pad.rect → b.speed.y > 0 →
        9/10 * MIN_BALL_SPEED_X ≤ |(paddleBounce pad b r).1.speed.x|) := by
  refine ⟨?_, ?_, ?_⟩
  · intro b
    have hx : |(wallBounceX b).speed.x| = |b.speed.x| := by
      unfold wallBounceX
      split <;> simp [abs_neg]
    unfold wallBounce
    split <;> simpa using hx
  · intro g ball r hhit
    cases hscan : (scanBricks ball g.bricks).2 with
    | none => simp [HandleBrickCollision, hscan] at hhit
    | some hb =>
      simp only [HandleBrickCollision, hscan]
      simpa using reflectOffBrick_min hb ball
  · intro pad b r h1 h2
    have hfloor : 9/10 * MIN_BALL_SPEED_X ≤ |(jitterFloorX (paddleTarget pad b) r).1| := by
      unfold jitterFloorX
      split
      next htgt =>
        have hj := randValue_bounds (-10) 10 r (by norm_num)
        simpa using jitterFloor_bound _ _ hj
      next htgt =>
        push_neg at htgt
        simp only [MIN_BALL_SPEED_X] at htgt ⊢
        linarith
    unfold paddleBounce
    split
    next hcond => simpa using hfloor
    next hcond => exact absurd ⟨h1, h2⟩ hcond

/-- Witness for the amended C1 at concrete wall, brick and paddle bounces. -/
theorem C1_min_speed_amended_witness :
    |(wallBounce wallBall).speed.x| = |(4 : ℚ)| ∧
    MIN_BALL_SPEED_X ≤
      |(HandleBrickCollision {baseVars with bricks := [brickTwo]}
        {midBall with position := ⟨70, 85⟩} []).2.1.speed.x| ∧
    9/10 * MIN_BALL_SPEED_X ≤
      |(paddleBounce stdPaddle {midBall with position := ⟨400, 546⟩, speed := ⟨3, 4⟩} [0]).1.speed.x| := by
  refine ⟨?_, ?_, ?_⟩
  · have h := C1_min_speed_amended.1 wallBall
    simpa [wallBall, midBall] using h
  · refine C1_min_speed_amended.2.1 _ _ [] ?_
    norm_num [HandleBrickCollision, scanBricks, hitPred, CheckCollisionCircleRec, brickTwo,
      initBrick, midBall, baseVars, stdPaddle, brickOne, BRICK_WIDTH, BRICK_HEIGHT,
      BRICK_SPACING, BRICKS_PER_ROW, SCREEN_WIDTH]
  · refine C1_min_speed_amended.2.2 stdPaddle _ [0] ?_ ?_
    · norm_num [CheckCollisionCircleRec, stdPaddle, midBall]
    · norm_num [midBall]

/-!
Claim C4.
-/

/-- Counterexample to C4: a corner hit with the ball center inside the
horizontal half width but outside the vertical half height is reflected
horizontally by the code (because the horizontal center offset is larger),
while the claim prescribes a vertical reflection. -/
theorem C4_claim_false :
    |(70 : ℚ) - (brickTwo.rect.x + brickTwo.rect.width / 2)| ≤ brickTwo.rect.width / 2 ∧
    |(85 : ℚ) - (brickTwo.rect.y + brickTwo.rect.height / 2)| > brickTwo.rect.height / 2 ∧
    (HandleBrickCollision {baseVars with bricks := [brickTwo]}
      {midBall with position := ⟨70, 85⟩} []).2.2.2 = true ∧
    (HandleBrickCollision {baseVars with bricks := [brickTwo]}
      {midBall with position := ⟨70, 85⟩} []).2.1.speed.x = -3 ∧
    (HandleBrickCollision {baseVars with bricks := [brickTwo]}
      {midBall with position := ⟨70, 85⟩} []).2.1.speed.y = -3 := by
  refine ⟨?_, ?_, ?_, ?_, ?_⟩ <;>
    norm_num [HandleBrickCollision, scanBricks, hitPred, CheckCollisionCircleRec, brickTwo,
      initBrick, midBall, baseVars, stdPaddle, brickOne, reflectOffBrick, brickReflectRaw,
      minSpeedFloor, damageBrick, MIN_BALL_SPEED_X, BRICK_WIDTH, BRICK_HEIGHT,
      BRICK_SPACING, BRICKS_PER_ROW, SCREEN_WIDTH]

/-- Helper: the brick reflection is the raw axis choice followed by the
minimum-speed floor on the horizontal component. -/
theorem reflectOffBrick_eq_floor (b : Brick) (ball : Ball) :
    reflectOffBrick b ball =
      {(brickReflectRaw b ball) with speed :=
        ⟨minSpeedFloor (brickReflectRaw b ball).speed.x,
          (brickReflectRaw b ball).speed.y⟩} := by
  by_cases hc : |(brickReflectRaw b ball).speed.x| < MIN_BALL_SPEED_X
  · simp [reflectOffBrick, minSpeedFloor, hc]
  · simp [reflectOffBrick, minSpeedFloor, hc]

/-- C4 amended: on a brick hit the reflection axis is horizontal exactly
when the ball center is outside one of the half extents and the horizontal
center offset exceeds the vertical one; in every other case, including deep
overlap, the reflection is vertical.  The floored horizontal component is
kept in both cases. -/
theorem C4_reflection_axis_amended (b : Brick) (ball : Ball) :
    ((|ball.position.x - (b.rect.x + b.rect.width / 2)| > b.rect.width / 2 ∨
        |ball.position.y - (b.rect.y + b.rect.height / 2)| > b.rect.height / 2) →
      |ball.position.x - (b.rect.x + b.rect.width / 2)| >
          |ball.position.y - (b.rect.y + b.rect.height / 2)| →
      reflectOffBrick b ball =
        {ball with speed := ⟨minSpeedFloor (-ball.speed.x), ball.speed.y⟩}) ∧
    ((|ball.position.x - (b.rect.x + b.rect.width / 2)| > b.rect.width / 2 ∨
        |ball.position.y - (b.rect.y + b.rect.height / 2)| > b.rect.height / 2) →
      ¬(|ball.position.x - (b.rect.x + b.rect.width / 2)| >
          |ball.position.y - (b.rect.y + b.rect.height / 2)|) →
      reflectOffBrick b ball =
        {ball with speed := ⟨minSpeedFloor ball.speed.x, -ball.speed.y⟩}) ∧
    (¬(|ball.position.x - (b.rect.x + b.rect.width / 2)| > b.rect.width / 2 ∨
        |ball.position.y - (b.rect.y + b.rect.height / 2)| > b.rect.height / 2) →
      reflectOffBrick b ball =
        {ball with speed := ⟨minSpeedFloor ball.speed.x, -ball.speed.y⟩}) := by
  refine ⟨?_, ?_, ?_⟩
  · intro houter hxy
    have hraw : brickReflectRaw b ball = {ball with speed := ⟨-ball.speed.x, ball.speed.y⟩} := by
      unfold brickReflectRaw
      rw [if_pos houter, if_pos hxy]
    rw [reflectOffBrick_eq_floor, hraw]
  · intro houter hxy
    have hraw : brickReflectRaw b ball = {ball with speed := ⟨ball.speed.x, -ball.speed.y⟩} := by
      unfold brickReflectRaw
      rw [if_pos houter, if_neg hxy]
    rw [reflectOffBrick_eq_floor, hraw]
  · intro houter
    have hraw : brickReflectRaw b ball = {ball with speed := ⟨ball.speed.x, -ball.speed.y⟩} := by
      unfold brickReflectRaw
      rw [if_neg houter]
    rw [reflectOffBrick_eq_floor, hraw]

/-- Witness for the amended C4 at the concrete corner hit of the
counterexample. -/
theorem C4_reflection_axis_amended_witness :
    reflectOffBrick brickTwo {midBall with position := ⟨70, 85⟩} =
      {({midBall with position := ⟨70, 85⟩} : Ball) with
        speed := ⟨minSpeedFloor (-(3 : ℚ)), (-3 : ℚ)⟩} := by
  have h := (C4_reflection_axis_amended brickTwo {midBall with position := ⟨70, 85⟩}).1
    (by norm_num [brickTwo, initBrick, midBall, BRICK_WIDTH, BRICK_HEIGHT, BRICK_SPACING,
      BRICKS_PER_ROW, SCREEN_WIDTH])
    (by norm_num [brickTwo, initBrick, midBall, BRICK_WIDTH, BRICK_HEIGHT, BRICK_SPACING,
      BRICKS_PER_ROW, SCREEN_WIDTH])
  simpa [midBall] using h

/-!
Claim C5.
-/

/-- Counterexample to C5: the ball is not clamped out of the wall, so after
a right wall flip it can remain within its radius of the wall and flip again
on the immediately following tick: the horizontal speed goes 4, -4, 4 on two
consecutive ticks, crossing x = SCREEN_WIDTH both times. -/
theorem C5_claim_false :
    ((UpdateGame [] gWall quietInput []).1.balls.map fun b => (b.position.x, b.speed.x)) =
      [((799 : ℚ), (-4 : ℚ))] ∧
    (((UpdateGame [] (UpdateGame [] gWall quietInput []).1 quietInput
        (UpdateGame [] gWall quietInput []).2).1.balls.map fun b => (b.position.x, b.speed.x)) =
      [((795 : ℚ), (4 : ℚ))]) ∧
    (799 : ℚ) + BALL_RADIUS ≥ SCREEN_WIDTH ∧ (795 : ℚ) + BALL_RADIUS ≥ SCREEN_WIDTH := by
  refine ⟨?_, ?_, by norm_num [BALL_RADIUS, SCREEN_WIDTH], by norm_num [BALL_RADIUS, SCREEN_WIDTH]⟩ <;>
    (repeat norm_num [UpdateGame, playingStep, timerPhase, paddleMovePhase, processBalls, ballStep,
      integrateBall, wallBounce, wallBounceX, bottomCheck, paddleBounce, paddleTarget,
      jitterFloorX, HandleBrickCollision, scanBricks, hitPred, CheckCollisionCircleRec,
      damageBrick, reflectOffBrick, brickReflectRaw, minSpeedFloor, SpawnPowerUp,
      lifeLossPhase, movingBrickPhase, UpdatePowerUps, UpdatePowerUpsAux, winCheckPhase,
      moveBrick, gWall, wallBall, baseVars, quietInput, midBall, stdPaddle, brickOne, initBrick,
      randValue, drawRaw, SCREEN_WIDTH, SCREEN_HEIGHT, PADDLE_SPEED, MIN_BALL_SPEED_X,
      POWERUP_SPEED, BALL_RADIUS, BRICK_WIDTH, BRICK_HEIGHT, BRICK_SPACING, BRICKS_PER_ROW])

/-- C5 amended: in the tick in which the integrated position crosses a side
wall the horizontal speed is negated exactly once, and it is unchanged when
no side wall is crossed; a flip can nevertheless recur on the immediately
following tick because the position is not clamped away from the wall. -/
theorem C5_wall_flip_once_amended (b : Ball) :
    ((integrateBall b).position.x + (integrateBall b).radius ≥ SCREEN_WIDTH ∨
        (integrateBall b).position.x - (integrateBall b).radius ≤ 0 →
      (wallBounce (integrateBall b)).speed.x = -b.speed.x) ∧
    (¬((integrateBall b).position.x + (integrateBall b).radius ≥ SCREEN_WIDTH ∨
        (integrateBall b).position.x - (integrateBall b).radius ≤ 0) →
      (wallBounce (integrateBall b)).speed.x = b.speed.x) := by
  constructor
  · intro h
    have hx : (wallBounceX (integrateBall b)).speed.x = -b.speed.x := by
      unfold wallBounceX
      rw [if_pos h]
      simp [integrateBall]
    unfold wallBounce
    split <;> simp [hx]
  · intro h
    have hx : (wallBounceX (integrateBall b)).speed.x = b.speed.x := by
      unfold wallBounceX
      rw [if_neg h]
      simp [integrateBall]
    unfold wallBounce
    split <;> simp [hx]

/-- Witness for the amended C5 at the concrete wall-bound ball. -/
theorem C5_wall_flip_once_amended_witness :
    (wallBounce (integrateBall wallBall)).speed.x = -4 := by
  have h := (C5_wall_flip_once_amended wallBall).1
    (by norm_num [integrateBall, wallBall, midBall, SCREEN_WIDTH, BALL_RADIUS])
  rw [h]
  norm_num [wallBall, midBall]

/-!
Claim C2.
-/

/-- Evaluation of the failing input of C2: in a PLAYING tick whose countdown
expires with lives = 1, the expiry branch decrements lives to 0 and sets
GAME_OVER, but the tick continues, finds no active ball (the expiry branch
deactivated them all), and decrements lives again, ending the tick at
lives = -1. -/
theorem C2_lives_negative :
    ({baseVars with balls := [midBall], lives := 1, countdownTimer := 1/100} : GameVars).lives = 1 ∧
    (UpdateGame [] {baseVars with balls := [midBall], lives := 1, countdownTimer := 1/100}
      {quietInput with frameTime := 1/50} []).1.lives = -1 ∧
    (UpdateGame [] {baseVars with balls := [midBall], lives := 1, countdownTimer := 1/100}
      {quietInput with frameTime := 1/50} []).1.currentState = GameState.GAME_OVER := by
  refine ⟨rfl, ?_, ?_⟩ <;>
    (repeat norm_num [UpdateGame, playingStep, timerPhase, paddleMovePhase, processBalls,
      ballStep, integrateBall, wallBounce, wallBounceX, bottomCheck, paddleBounce,
      lifeLossPhase, movingBrickPhase, moveBrick, UpdatePowerUps, UpdatePowerUpsAux,
      winCheckPhase, ResetBallsAndPaddle, HandleBrickCollision, scanBricks, hitPred,
      CheckCollisionCircleRec, baseVars, quietInput, midBall, stdPaddle, brickOne, initBrick,
      randValue, drawRaw, SCREEN_WIDTH, SCREEN_HEIGHT, PADDLE_SPEED, BALL_RADIUS, BRICK_WIDTH,
      BRICK_HEIGHT, BRICK_SPACING, BRICKS_PER_ROW])

/-!
Claim C3.
-/

/-- Helper: a scan over bricks none of which pass the hit test leaves the
grid unchanged and reports no hit. -/
theorem scanBricks_miss (ball : Ball) (bricks : List Brick)
    (h : ∀ b ∈ bricks, ¬ hitPred ball b) : scanBricks ball bricks = (bricks, none) := by
  induction bricks with
  | nil => rfl
  | cons b rest ih =>
    unfold scanBricks
    rw [if_neg (h b (List.mem_cons_self b rest))]
    rw [ih (fun x hx => h x (List.mem_cons_of_mem b hx))]

/-- Helper: when cell k is the first (in scan order) to pass the hit test,
the scan damages exactly that cell and reports its pre-damage value. -/
theorem scanBricks_hit (ball : Ball) (bricks : List Brick) :
    ∀ (k : Nat) (b : Brick), bricks[k]? = some b → hitPred ball b →
    (∀ (j : Nat) (bj : Brick), j < k → bricks[j]? = some bj → ¬ hitPred ball bj) →
    (scanBricks ball bricks).2 = some b ∧
    (scanBricks ball bricks).1 = bricks.set k (damageBrick b) := by
  induction bricks with
  | nil => intro k b hk; simp at hk
  | cons hb rest ih =>
    intro k b hk hhit hmiss
    cases k with
    | zero =>
      have hb' : hb = b := by simpa using hk
      subst hb'
      unfold scanBricks
      rw [if_pos hhit]
      simp
    | succ k =>
      have h0 : ¬ hitPred ball hb := hmiss 0 hb (Nat.succ_pos k) (by simp)
      have hk' : rest[k]? = some b := by simpa using hk
      have hmiss' : ∀ (j : Nat) (bj : Brick), j < k → rest[j]? = some bj → ¬ hitPred ball bj := by
        intro j bj hj hbj
        exact hmiss (j + 1) bj (Nat.succ_lt_succ hj) (by simpa using hbj)
      have hrec := ih k b hk' hhit hmiss'
      unfold scanBricks
      rw [if_neg h0]
      refine ⟨by simpa using hrec.1, ?_⟩
      rw [List.set_cons_succ]
      simp [hrec.2]

/-- C3: the brick scan tests cells in row-major order (the flattened list
order); when no active brick intersects, the grid is unchanged and no hit is
reported, and when cell k is the first intersecting active brick, exactly
that cell is damaged, the scan stops there, and every other cell is
untouched. -/
theorem C3_first_hit_only (ball : Ball) (bricks : List Brick) :
    ((∀ b ∈ bricks, ¬ hitPred ball b) → scanBricks ball bricks = (bricks, none)) ∧
    (∀ (k : Nat) (b : Brick), bricks[k]? = some b → hitPred ball b →
      (∀ (j : Nat) (bj : Brick), j < k → bricks[j]? = some bj → ¬ hitPred ball bj) →
      (scanBricks ball bricks).2 = some b ∧
      (scanBricks ball bricks).1 = bricks.set k (damageBrick b) ∧
      ∀ j : Nat, j ≠ k → (scanBricks ball bricks).1[j]? = bricks[j]?) := by
  refine ⟨scanBricks_miss ball bricks, ?_⟩
  intro k b hk hhit hmiss
  obtain ⟨h2, h1⟩ := scanBricks_hit ball bricks k b hk hhit hmiss
  refine ⟨h2, h1, ?_⟩
  intro j hj
  rw [h1]
  exact List.getElem?_set_ne (Ne.symm hj)

/-- Witness for C3: the scan over a missed brick followed by a hit brick
resolves exactly the second cell and leaves the first untouched. -/
theorem C3_first_hit_only_witness :
    (scanBricks {midBall with position := ⟨70, 85⟩}
      [{(initBrick 9) with active := true, hitsRequired := 1, color := RED}, brickTwo]).2 =
        some brickTwo ∧
    (scanBricks {midBall with position := ⟨70, 85⟩}
      [{(initBrick 9) with active := true, hitsRequired := 1, color := RED}, brickTwo]).1 =
      [{(initBrick 9) with active := true, hitsRequired := 1, color := RED}, brickTwo].set 1
        (damageBrick brickTwo) := by
  have h := (C3_first_hit_only {midBall with position := ⟨70, 85⟩}
    [{(initBrick 9) with active := true, hitsRequired := 1, color := RED}, brickTwo]).2
    1 brickTwo rfl
    (by norm_num [hitPred, CheckCollisionCircleRec, brickTwo, initBrick, midBall,
      BRICK_WIDTH, BRICK_HEIGHT, BRICK_SPACING, BRICKS_PER_ROW, SCREEN_WIDTH])
    (by
      intro j bj hj hbj
      have hj0 : j = 0 := by omega
      subst hj0
      have hbj' : bj = {(initBrick 9) with active := true, hitsRequired := 1, color := RED} := by
        simpa using hbj.symm
      subst hbj'
      norm_num [hitPred, CheckCollisionCircleRec, initBrick, midBall,
        BRICK_WIDTH, BRICK_HEIGHT, BRICK_SPACING, BRICKS_PER_ROW, SCREEN_WIDTH])
  exact ⟨h.1, h.2.1⟩

/-!
Claim C8, with the level-setup counting machinery shared with C6.
-/

/-- Helper: setting a looked-up cell shifts the active count by the change
in the active flag. -/
theorem countActive_set (l : List Brick) : ∀ (k : Nat) (b v : Brick), l[k]? = some b →
    countActive (l.set k v) + (if b.active = true then 1 else 0) =
      countActive l + (if v.active = true then 1 else 0) := by
  induction l with
  | nil => intro k b v hk; simp at hk
  | cons x xs ih =>
    intro k b v hk
    cases k with
    | zero =>
      have hb : x = b := by simpa using hk
      subst hb
      simp only [List.set]
      simp [countActive, List.countP_cons]
      omega
    | succ k =>
      have hk' : xs[k]? = some b := by simpa using hk
      have h := ih k b v hk'
      simp only [List.set_cons_succ]
      simp [countActive, List.countP_cons] at h ⊢
      omega

/-- Helper: activating one cell produces a set with an active brick. -/
theorem activateOne_active (diff : Difficulty) (rows : Nat) (bricks : List Brick)
    (idx : Nat) (r : Rng) (b : Brick) (hk : bricks[idx]? = some b) :
    ∃ v : Brick, v.active = true ∧
      (activateOne diff rows bricks idx r).1 = bricks.set idx v := by
  unfold activateOne
  rw [hk]
  refine ⟨_, ?_, rfl⟩
  rfl

/-- Helper: the activation loop over distinct inactive cells activates
exactly one brick per selected cell and counts them in the counter. -/
theorem activateBricks_count (diff : Difficulty) (rows : Nat) :
    ∀ (idxs : List Nat) (bricks : List Brick) (cnt : ℤ) (r : Rng),
    idxs.Nodup → (∀ i ∈ idxs, ∃ b, bricks[i]? = some b ∧ b.active = false) →
    countActive (activateBricks diff rows idxs bricks cnt r).1 =
      countActive bricks + idxs.length ∧
    (activateBricks diff rows idxs bricks cnt r).2.1 = cnt + idxs.length := by
  intro idxs
  induction idxs with
  | nil => intro bricks cnt r _ _; simp [activateBricks]
  | cons idx rest ih =>
    intro bricks cnt r hnd hin
    obtain ⟨b, hb, hbact⟩ := hin idx (List.mem_cons_self idx rest)
    obtain ⟨v, hv, hset⟩ := activateOne_active diff rows bricks idx r b hb
    have hcount : countActive (bricks.set idx v) = countActive bricks + 1 := by
      have h := countActive_set bricks idx b v hb
      rw [hbact] at h
      rw [hv] at h
      simp at h
      omega
    have hin2 : ∀ i ∈ rest, ∃ bb, (activateOne diff rows bricks idx r).1[i]? = some bb ∧
        bb.active = false := by
      intro i hi
      obtain ⟨bb, hbb, hbbact⟩ := hin i (List.mem_cons_of_mem idx hi)
      have hne : idx ≠ i := by
        intro he
        subst he
        exact (List.nodup_cons.mp hnd).1 hi
      refine ⟨bb, ?_, hbbact⟩
      rw [hset]
      rw [List.getElem?_set_ne hne]
      exact hbb
    have hrec := ih (activateOne diff rows bricks idx r).1 (cnt + 1)
      (activateOne diff rows bricks idx r).2 (List.nodup_cons.mp hnd).2 hin2
    unfold activateBricks
    constructor
    · rw [hrec.1, hset, hcount]
      simp
      omega
    · rw [hrec.2]
      simp
      omega

/-- Helper: EASY activation gives every activated brick exactly one required
hit, and preserves that property of the rest of the grid. -/
theorem activateBricks_hits_easy (rows : Nat) :
    ∀ (idxs : List Nat) (bricks : List Brick) (cnt : ℤ) (r : Rng),
    (∀ b ∈ bricks, b.active = true → b.hitsRequired = 1) →
    ∀ b ∈ (activateBricks Difficulty.EASY rows idxs bricks cnt r).1,
      b.active = true → b.hitsRequired = 1 := by
  intro idxs
  induction idxs with
  | nil => intro bricks cnt r h; simpa [activateBricks] using h
  | cons idx rest ih =>
    intro bricks cnt r h
    unfold activateBricks
    apply ih
    intro b hb hbact
    unfold activateOne at hb
    cases hk : bricks[idx]? with
    | none => rw [hk] at hb; exact h b hb hbact
    | some old =>
      rw [hk] at hb
      rcases List.mem_or_eq_of_mem_set hb with hmem | heq
      · exact h b hmem hbact
      · subst heq; rfl

/-- Helper: the cells of the base grid exist and are inactive. -/
theorem baseBricks_get (i : Nat) (hi : i < 60) :
    baseBricks[i]? = some (initBrick i) ∧ (initBrick i).active = false := by
  constructor
  · unfold baseBricks
    rw [List.getElem?_map]
    rw [List.getElem?_range (by simpa [BRICK_ROWS, BRICKS_PER_ROW] using hi)]
    rfl
  · rfl

/-- Helper: the base grid has no active brick. -/
theorem countActive_baseBricks : countActive baseBricks = 0 := by
  unfold countActive
  rw [List.countP_eq_zero]
  intro a ha
  obtain ⟨k, _, hk⟩ := List.mem_map.mp ha
  rw [← hk]
  simp [initBrick]

/-- Helper lemma shared by C6 and C8: after SetupLevel with any shuffle
permutation of the candidate cells, the cached counter equals the number of
active bricks, and that number is the floored density fraction of the
candidate count for some density draw in [70, 90]. -/
theorem SetupLevel_counts (diff : Difficulty) (perm : List Nat) (g : GameVars) (r : Rng)
    (hperm : perm.Perm (List.range (activeRowsFor diff * BRICKS_PER_ROW))) :
    ∃ d : ℤ, 70 ≤ d ∧ d ≤ 90 ∧
      countActive (SetupLevel diff perm g r).1.bricks =
        (⌊(perm.length : ℚ) * ((d : ℚ) / 100)⌋).toNat ∧
      (SetupLevel diff perm g r).1.activeBricks =
        (countActive (SetupLevel diff perm g r).1.bricks : ℤ) := by
  have hrows : activeRowsFor diff * BRICKS_PER_ROW ≤ 60 := by
    cases diff <;> decide
  have hlen : perm.length = activeRowsFor diff * BRICKS_PER_ROW := by
    simpa using hperm.length_eq
  have hnd : perm.Nodup := (hperm.nodup_iff).mpr (List.nodup_range _)
  have hmem : ∀ i ∈ perm, i < 60 := by
    intro i hi
    have := List.mem_range.mp (hperm.mem_iff.mp hi)
    omega
  set r1 := (ResetBallsAndPaddle {g with paddle := setupPaddle diff} r).2 with hr1
  have hd := randValue_bounds 70 90 r1 (by norm_num)
  set d := (randValue 70 90 r1).1 with hdd
  refine ⟨d, hd.1, hd.2, ?_⟩
  set numB : ℤ := ⌊(perm.length : ℚ) * ((d : ℚ) / 100)⌋ with hnb
  have hnb_le : numB ≤ (perm.length : ℤ) := by
    have hle : (perm.length : ℚ) * ((d : ℚ) / 100) ≤ ((perm.length : ℤ) : ℚ) := by
      have hd90 : (d : ℚ) ≤ 90 := by exact_mod_cast hd.2
      have hp0 : (0 : ℚ) ≤ (perm.length : ℚ) := by positivity
      push_cast
      nlinarith
    calc numB ≤ ⌊((perm.length : ℤ) : ℚ)⌋ := Int.floor_le_floor hle
    _ = (perm.length : ℤ) := Int.floor_intCast _
  have htake_len : (perm.take numB.toNat).length = numB.toNat := by
    rw [List.length_take]
    have : numB.toNat ≤ perm.length := by
      rw [Int.toNat_le]
      exact hnb_le
    omega
  have htake_nd : (perm.take numB.toNat).Nodup :=
    (List.take_sublist _ _).nodup hnd
  have htake_in : ∀ i ∈ perm.take numB.toNat, ∃ b, baseBricks[i]? = some b ∧
      b.active = false := by
    intro i hi
    have hi60 : i < 60 := hmem i (List.mem_of_mem_take hi)
    obtain ⟨hb, hact⟩ := baseBricks_get i hi60
    exact ⟨initBrick i, hb, hact⟩
  have hact := activateBricks_count diff (activeRowsFor diff) (perm.take numB.toNat)
    baseBricks 0 (randValue 70 90 r1).2 htake_nd htake_in
  constructor
  · show countActive (activateBricks diff (activeRowsFor diff) (perm.take numB.toNat)
      baseBricks 0 (randValue 70 90 r1).2).1 = numB.toNat
    rw [hact.1, countActive_baseBricks, htake_len]
    omega
  · show (activateBricks diff (activeRowsFor diff) (perm.take numB.toNat)
      baseBricks 0 (randValue 70 90 r1).2).2.1 =
      (countActive (activateBricks diff (activeRowsFor diff) (perm.take numB.toNat)
        baseBricks 0 (randValue 70 90 r1).2).1 : ℤ)
    rw [hact.1, hact.2, countActive_baseBricks, htake_len]
    push_cast
    omega

/-- C8: an EASY level activates between 21 and 27 of the 30 candidate cells
(the floored random fraction in [0.70, 0.90] of 30), the cached counter
matches, and every active brick requires exactly one hit. -/
theorem C8_easy_level (perm : List Nat) (g : GameVars) (r : Rng)
    (hperm : perm.Perm (List.range 30)) :
    (21 ≤ countActive (SetupLevel Difficulty.EASY perm g r).1.bricks ∧
      countActive (SetupLevel Difficulty.EASY perm g r).1.bricks ≤ 27) ∧
    (SetupLevel Difficulty.EASY perm g r).1.activeBricks =
      (countActive (SetupLevel Difficulty.EASY perm g r).1.bricks : ℤ) ∧
    ∀ b ∈ (SetupLevel Difficulty.EASY perm g r).1.bricks,
      b.active = true → b.hitsRequired = 1 := by
  have hperm30 : perm.Perm (List.range (activeRowsFor Difficulty.EASY * BRICKS_PER_ROW)) := by
    rw [show activeRowsFor Difficulty.EASY * BRICKS_PER_ROW = 30 from rfl]
    exact hperm
  obtain ⟨d, hd70, hd90, hcnt, hinv⟩ := SetupLevel_counts Difficulty.EASY perm g r hperm30
  have hlen : perm.length = 30 := by simpa using hperm.length_eq
  refine ⟨?_, hinv, ?_⟩
  · have h30 : ((30 : ℕ) : ℚ) = (30 : ℚ) := by norm_num
    rw [hcnt, hlen, h30]
    have hlow : (21 : ℤ) ≤ ⌊(30 : ℚ) * ((d : ℚ) / 100)⌋ := by
      rw [Int.le_floor]
      have hd : (70 : ℚ) ≤ (d : ℚ) := by exact_mod_cast hd70
      push_cast
      nlinarith
    have hhigh : ⌊(30 : ℚ) * ((d : ℚ) / 100)⌋ ≤ 27 := by
      have hd : (d : ℚ) ≤ 90 := by exact_mod_cast hd90
      have h1 : (30 : ℚ) * ((d : ℚ) / 100) ≤ ((27 : ℤ) : ℚ) := by push_cast; nlinarith
      calc ⌊(30 : ℚ) * ((d : ℚ) / 100)⌋ ≤ ⌊((27 : ℤ) : ℚ)⌋ := Int.floor_le_floor h1
        _ = 27 := Int.floor_intCast _
    constructor <;> omega
  · intro b hb hbact
    have hbase : ∀ bb ∈ baseBricks, bb.active = true → bb.hitsRequired = 1 := by
      intro bb hbb hact2
      exfalso
      obtain ⟨k, _, hk⟩ := List.mem_map.mp hbb
      rw [← hk] at hact2
      simp [initBrick] at hact2
    exact activateBricks_hits_easy (activeRowsFor Difficulty.EASY) _ baseBricks 0 _ hbase
      b hb hbact

/-- Witness for C8 with the identity shuffle permutation. -/
theorem C8_easy_level_witness :
    21 ≤ countActive (SetupLevel Difficulty.EASY (List.range 30) baseVars []).1.bricks ∧
    countActive (SetupLevel Difficulty.EASY (List.range 30) baseVars []).1.bricks ≤ 27 :=
  ⟨(C8_easy_level (List.range 30) baseVars [] (List.Perm.refl _)).1.1,
   (C8_easy_level (List.range 30) baseVars [] (List.Perm.refl _)).1.2⟩

/-!
Frame lemmas: which state components each phase of the PLAYING tick can
touch.  Stated generically over an observation f of the state record.
-/

/-- SpawnPowerUp only appends to the power-up list. -/
theorem SpawnPowerUp_vars {α : Type} (f : GameVars → α)
    (hpu : ∀ g P, f {g with powerUps := P} = f g) :
    ∀ (pos : Vector2) (g : GameVars) (r : Rng), f (SpawnPowerUp pos g r).1 = f g := by
  intro pos g r
  simp only [SpawnPowerUp]
  split
  · rfl
  · exact hpu g _

/-- HandleBrickCollision only touches bricks, the counter, the score and the
power-up list. -/
theorem HandleBrickCollision_vars {α : Type} (f : GameVars → α)
    (hpu : ∀ g P, f {g with powerUps := P} = f g)
    (hupd : ∀ g A C S, f {g with bricks := A, activeBricks := C, score := S} = f g) :
    ∀ (g : GameVars) (ball : Ball) (r : Rng), f (HandleBrickCollision g ball r).1 = f g := by
  intro g ball r
  cases hscan : (scanBricks ball g.bricks).2 with
  | none =>
    simp only [HandleBrickCollision, hscan]
    exact hupd g _ g.activeBricks g.score
  | some hb =>
    simp only [HandleBrickCollision, hscan]
    split
    · rw [SpawnPowerUp_vars f hpu]
      exact hupd g _ _ _
    · exact hupd g _ g.activeBricks g.score

/-- The per-ball step only touches bricks, the counter, the score and the
power-up list of the shared state. -/
theorem ballStep_vars {α : Type} (f : GameVars → α)
    (hpu : ∀ g P, f {g with powerUps := P} = f g)
    (hupd : ∀ g A C S, f {g with bricks := A, activeBricks := C, score := S} = f g) :
    ∀ (g : GameVars) (ball : Ball) (r : Rng), f (ballStep g ball r).1 = f g := by
  intro g ball r
  unfold ballStep
  exact HandleBrickCollision_vars f hpu hupd g _ _

/-- The ball loop only touches bricks, the counter, the score and the
power-up list of the shared state. -/
theorem processBalls_vars {α : Type} (f : GameVars → α)
    (hpu : ∀ g P, f {g with powerUps := P} = f g)
    (hupd : ∀ g A C S, f {g with bricks := A, activeBricks := C, score := S} = f g) :
    ∀ (balls : List Ball) (g : GameVars) (r : Rng),
      f (processBalls g r balls).2.1 = f g := by
  intro balls
  induction balls with
  | nil => intro g r; rfl
  | cons ball rest ih =>
    intro g r
    unfold processBalls
    split
    · rw [ih]
      exact ballStep_vars f hpu hupd g ball r
    · exact ih g r

/-- ApplyPowerUp only touches the paddle, the balls and the lives. -/
theorem ApplyPowerUp_vars {α : Type} (f : GameVars → α)
    (hpad : ∀ g P, f {g with paddle := P} = f g)
    (hballs : ∀ g B, f {g with balls := B} = f g)
    (hlife : ∀ g L, f {g with lives := L} = f g) :
    ∀ (t : PowerUpType) (g : GameVars), f (ApplyPowerUp t g) = f g := by
  intro t g
  cases t with
  | NONE => rfl
  | PADDLE_SIZE_UP => exact hpad g _
  | BALL_SPEED_UP => exact hballs g _
  | EXTRA_LIFE => exact hlife g _
  | MULTI_BALL =>
    cases hb : g.balls with
    | nil => simp only [ApplyPowerUp, hb]
    | cons b0 rest =>
      simp only [ApplyPowerUp, hb]
      exact hballs g _

/-- The power-up update loop only touches the paddle, the balls and the
lives of the shared state. -/
theorem UpdatePowerUpsAux_vars {α : Type} (f : GameVars → α)
    (hpad : ∀ g P, f {g with paddle := P} = f g)
    (hballs : ∀ g B, f {g with balls := B} = f g)
    (hlife : ∀ g L, f {g with lives := L} = f g) :
    ∀ (ps : List PowerUp) (g : GameVars), f (UpdatePowerUpsAux g ps).2 = f g := by
  intro ps
  induction ps with
  | nil => intro g; rfl
  | cons p rest ih =>
    intro g
    simp only [UpdatePowerUpsAux]
    split
    · split
      · rw [ih]
        exact ApplyPowerUp_vars f hpad hballs hlife _ g
      · split
        · exact ih g
        · exact ih g
    · exact ih g

/-- UpdatePowerUps only touches the paddle, the balls, the lives and the
power-up list. -/
theorem UpdatePowerUps_vars {α : Type} (f : GameVars → α)
    (hpad : ∀ g P, f {g with paddle := P} = f g)
    (hballs : ∀ g B, f {g with balls := B} = f g)
    (hlife : ∀ g L, f {g with lives := L} = f g)
    (hpu : ∀ g P, f {g with powerUps := P} = f g) :
    ∀ g : GameVars, f (UpdatePowerUps g) = f g := by
  intro g
  unfold UpdatePowerUps
  rw [hpu]
  exact UpdatePowerUpsAux_vars f hpad hballs hlife _ g

@[simp]
theorem SpawnPowerUp_bricks (pos : Vector2) (g : GameVars) (r : Rng) :
    (SpawnPowerUp pos g r).1.bricks = g.bricks :=
  SpawnPowerUp_vars (fun g => g.bricks) (fun _ _ => rfl) pos g r

@[simp]
theorem SpawnPowerUp_activeBricks (pos : Vector2) (g : GameVars) (r : Rng) :
    (SpawnPowerUp pos g r).1.activeBricks = g.activeBricks :=
  SpawnPowerUp_vars (fun g => g.activeBricks) (fun _ _ => rfl) pos g r

@[simp]
theorem processBalls_timer (balls : List Ball) (g : GameVars) (r : Rng) :
    (processBalls g r balls).2.1.countdownTimer = g.countdownTimer :=
  processBalls_vars (fun g => g.countdownTimer) (fun _ _ => rfl) (fun _ _ _ _ => rfl) balls g r

@[simp]
theorem processBalls_state (balls : List Ball) (g : GameVars) (r : Rng) :
    (processBalls g r balls).2.1.currentState = g.currentState :=
  processBalls_vars (fun g => g.currentState) (fun _ _ => rfl) (fun _ _ _ _ => rfl) balls g r

@[simp]
theorem processBalls_paused (balls : List Ball) (g : GameVars) (r : Rng) :
    (processBalls g r balls).2.1.paused = g.paused :=
  processBalls_vars (fun g => g.paused) (fun _ _ => rfl) (fun _ _ _ _ => rfl) balls g r

@[simp]
theorem processBalls_lives (balls : List Ball) (g : GameVars) (r : Rng) :
    (processBalls g r balls).2.1.lives = g.lives :=
  processBalls_vars (fun g => g.lives) (fun _ _ => rfl) (fun _ _ _ _ => rfl) balls g r

@[simp]
theorem processBalls_paddle (balls : List Ball) (g : GameVars) (r : Rng) :
    (processBalls g r balls).2.1.paddle = g.paddle :=
  processBalls_vars (fun g => g.paddle) (fun _ _ => rfl) (fun _ _ _ _ => rfl) balls g r

@[simp]
theorem processBalls_difficulty (balls : List Ball) (g : GameVars) (r : Rng) :
    (processBalls g r balls).2.1.currentDifficulty = g.currentDifficulty :=
  processBalls_vars (fun g => g.currentDifficulty) (fun _ _ => rfl) (fun _ _ _ _ => rfl) balls g r

@[simp]
theorem UpdatePowerUps_bricks (g : GameVars) :
    (UpdatePowerUps g).bricks = g.bricks :=
  UpdatePowerUps_vars (fun g => g.bricks) (fun _ _ => rfl) (fun _ _ => rfl) (fun _ _ => rfl)
    (fun _ _ => rfl) g

@[simp]
theorem UpdatePowerUps_activeBricks (g : GameVars) :
    (UpdatePowerUps g).activeBricks = g.activeBricks :=
  UpdatePowerUps_vars (fun g => g.activeBricks) (fun _ _ => rfl) (fun _ _ => rfl)
    (fun _ _ => rfl) (fun _ _ => rfl) g

@[simp]
theorem UpdatePowerUps_timer (g : GameVars) :
    (UpdatePowerUps g).countdownTimer = g.countdownTimer :=
  UpdatePowerUps_vars (fun g => g.countdownTimer) (fun _ _ => rfl) (fun _ _ => rfl)
    (fun _ _ => rfl) (fun _ _ => rfl) g

@[simp]
theorem UpdatePowerUps_state (g : GameVars) :
    (UpdatePowerUps g).currentState = g.currentState :=
  UpdatePowerUps_vars (fun g => g.currentState) (fun _ _ => rfl) (fun _ _ => rfl)
    (fun _ _ => rfl) (fun _ _ => rfl) g

@[simp]
theorem UpdatePowerUps_paused (g : GameVars) :
    (UpdatePowerUps g).paused = g.paused :=
  UpdatePowerUps_vars (fun g => g.paused) (fun _ _ => rfl) (fun _ _ => rfl)
    (fun _ _ => rfl) (fun _ _ => rfl) g

@[simp]
theorem UpdatePowerUps_difficulty (g : GameVars) :
    (UpdatePowerUps g).currentDifficulty = g.currentDifficulty :=
  UpdatePowerUps_vars (fun g => g.currentDifficulty) (fun _ _ => rfl) (fun _ _ => rfl)
    (fun _ _ => rfl) (fun _ _ => rfl) g

/-- A state with no pending power-ups is unchanged by UpdatePowerUps. -/
theorem UpdatePowerUps_nil (g : GameVars) (h : g.powerUps = []) :
    UpdatePowerUps g = g := by
  unfold UpdatePowerUps
  rw [h]
  simp only [UpdatePowerUpsAux]
  rw [← h]

@[simp]
theorem timerPhase_timer (g : GameVars) (dt : ℚ) (r : Rng) :
    (timerPhase g dt r).1.countdownTimer = g.countdownTimer - dt := by
  simp only [timerPhase]
  split <;> (try split) <;> rfl

@[simp]
theorem timerPhase_bricks (g : GameVars) (dt : ℚ) (r : Rng) :
    (timerPhase g dt r).1.bricks = g.bricks := by
  simp only [timerPhase]
  split <;> (try split) <;> rfl

@[simp]
theorem timerPhase_activeBricks (g : GameVars) (dt : ℚ) (r : Rng) :
    (timerPhase g dt r).1.activeBricks = g.activeBricks := by
  simp only [timerPhase]
  split <;> (try split) <;> rfl

@[simp]
theorem timerPhase_paused (g : GameVars) (dt : ℚ) (r : Rng) :
    (timerPhase g dt r).1.paused = g.paused := by
  simp only [timerPhase]
  split <;> (try split) <;> rfl

@[simp]
theorem timerPhase_powerUps (g : GameVars) (dt : ℚ) (r : Rng) :
    (timerPhase g dt r).1.powerUps = g.powerUps := by
  simp only [timerPhase]
  split <;> (try split) <;> rfl

@[simp]
theorem timerPhase_difficulty (g : GameVars) (dt : ℚ) (r : Rng) :
    (timerPhase g dt r).1.currentDifficulty = g.currentDifficulty := by
  simp only [timerPhase]
  split <;> (try split) <;> rfl

@[simp]
theorem timerPhase_paddleHeight (g : GameVars) (dt : ℚ) (r : Rng) :
    (timerPhase g dt r).1.paddle.rect.height = g.paddle.rect.height := by
  simp only [timerPhase]
  split <;> (try split) <;> rfl

@[simp]
theorem lifeLossPhase_timer (g : GameVars) (any : Bool) (r : Rng) :
    (lifeLossPhase g any r).1.countdownTimer = g.countdownTimer := by
  simp only [lifeLossPhase]
  split <;> (try split) <;> rfl

@[simp]
theorem lifeLossPhase_bricks (g : GameVars) (any : Bool) (r : Rng) :
    (lifeLossPhase g any r).1.bricks = g.bricks := by
  simp only [lifeLossPhase]
  split <;> (try split) <;> rfl

@[simp]
theorem lifeLossPhase_activeBricks (g : GameVars) (any : Bool) (r : Rng) :
    (lifeLossPhase g any r).1.activeBricks = g.activeBricks := by
  simp only [lifeLossPhase]
  split <;> (try split) <;> rfl

@[simp]
theorem lifeLossPhase_paused (g : GameVars) (any : Bool) (r : Rng) :
    (lifeLossPhase g any r).1.paused = g.paused := by
  simp only [lifeLossPhase]
  split <;> (try split) <;> rfl

@[simp]
theorem lifeLossPhase_powerUps (g : GameVars) (any : Bool) (r : Rng) :
    (lifeLossPhase g any r).1.powerUps = g.powerUps := by
  simp only [lifeLossPhase]
  split <;> (try split) <;> rfl

@[simp]
theorem lifeLossPhase_difficulty (g : GameVars) (any : Bool) (r : Rng) :
    (lifeLossPhase g any r).1.currentDifficulty = g.currentDifficulty := by
  simp only [lifeLossPhase]
  split <;> (try split) <;> rfl

@[simp]
theorem lifeLossPhase_paddleHeight (g : GameVars) (any : Bool) (r : Rng) :
    (lifeLossPhase g any r).1.paddle.rect.height = g.paddle.rect.height := by
  simp only [lifeLossPhase]
  split <;> (try split) <;> rfl

@[simp]
theorem paddleMovePhase_vars (g : GameVars) (inp : Input) :
    (paddleMovePhase g inp).bricks = g.bricks ∧
    (paddleMovePhase g inp).activeBricks = g.activeBricks ∧
    (paddleMovePhase g inp).countdownTimer = g.countdownTimer ∧
    (paddleMovePhase g inp).currentState = g.currentState ∧
    (paddleMovePhase g inp).paused = g.paused ∧
    (paddleMovePhase g inp).lives = g.lives ∧
    (paddleMovePhase g inp).powerUps = g.powerUps ∧
    (paddleMovePhase g inp).currentDifficulty = g.currentDifficulty ∧
    (paddleMovePhase g inp).balls = g.balls ∧
    (paddleMovePhase g inp).paddle.rect.height = g.paddle.rect.height ∧
    (paddleMovePhase g inp).paddle.rect.y = g.paddle.rect.y ∧
    (paddleMovePhase g inp).paddle.rect.width = g.paddle.rect.width := by
  refine ⟨rfl, rfl, rfl, rfl, rfl, rfl, rfl, rfl, rfl, rfl, rfl, rfl⟩

@[simp]
theorem moveBrick_active (b : Brick) : (moveBrick b).active = b.active := by
  simp only [moveBrick]
  split <;> (try split) <;> rfl

theorem moveBrick_geom (b : Brick) :
    (moveBrick b).rect.y = b.rect.y ∧ (moveBrick b).rect.height = b.rect.height := by
  simp only [moveBrick]
  split <;> (try split) <;> exact ⟨rfl, rfl⟩

/-- Moving the bricks does not change how many are active. -/
theorem countActive_map_moveBrick (bs : List Brick) :
    countActive (bs.map moveBrick) = countActive bs := by
  induction bs with
  | nil => rfl
  | cons b rest ih =>
    unfold countActive at ih ⊢
    rw [List.map_cons, List.countP_cons, List.countP_cons, ih, moveBrick_active]

@[simp]
theorem movingBrickPhase_activeBricks (g : GameVars) :
    (movingBrickPhase g).activeBricks = g.activeBricks := by
  unfold movingBrickPhase
  split <;> rfl

@[simp]
theorem movingBrickPhase_timer (g : GameVars) :
    (movingBrickPhase g).countdownTimer = g.countdownTimer := by
  unfold movingBrickPhase
  split <;> rfl

@[simp]
theorem movingBrickPhase_state (g : GameVars) :
    (movingBrickPhase g).currentState = g.currentState := by
  unfold movingBrickPhase
  split <;> rfl

@[simp]
theorem movingBrickPhase_paused (g : GameVars) :
    (movingBrickPhase g).paused = g.paused := by
  unfold movingBrickPhase
  split <;> rfl

@[simp]
theorem movingBrickPhase_lives (g : GameVars) :
    (movingBrickPhase g).lives = g.lives := by
  unfold movingBrickPhase
  split <;> rfl

@[simp]
theorem movingBrickPhase_powerUps (g : GameVars) :
    (movingBrickPhase g).powerUps = g.powerUps := by
  unfold movingBrickPhase
  split <;> rfl

@[simp]
theorem movingBrickPhase_difficulty (g : GameVars) :
    (movingBrickPhase g).currentDifficulty = g.currentDifficulty := by
  unfold movingBrickPhase
  split <;> rfl

@[simp]
theorem movingBrickPhase_paddle (g : GameVars) :
    (movingBrickPhase g).paddle = g.paddle := by
  unfold movingBrickPhase
  split <;> rfl

@[simp]
theorem movingBrickPhase_balls (g : GameVars) :
    (movingBrickPhase g).balls = g.balls := by
  unfold movingBrickPhase
  split <;> rfl

/-- The moving-brick phase keeps the active count. -/
theorem movingBrickPhase_countActive (g : GameVars) :
    countActive (movingBrickPhase g).bricks = countActive g.bricks := by
  unfold movingBrickPhase
  split
  · exact countActive_map_moveBrick g.bricks
  · rfl

@[simp]
theorem winCheckPhase_activeBricks (g : GameVars) :
    (winCheckPhase g).activeBricks = g.activeBricks := by
  unfold winCheckPhase
  split <;> rfl

@[simp]
theorem winCheckPhase_bricks (g : GameVars) :
    (winCheckPhase g).bricks = g.bricks := by
  unfold winCheckPhase
  split <;> rfl

@[simp]
theorem winCheckPhase_timer (g : GameVars) :
    (winCheckPhase g).countdownTimer = g.countdownTimer := by
  unfold winCheckPhase
  split <;> rfl

@[simp]
theorem winCheckPhase_paused (g : GameVars) :
    (winCheckPhase g).paused = g.paused := by
  unfold winCheckPhase
  split <;> rfl

@[simp]
theorem winCheckPhase_lives (g : GameVars) :
    (winCheckPhase g).lives = g.lives := by
  unfold winCheckPhase
  split <;> rfl

@[simp]
theorem winCheckPhase_powerUps (g : GameVars) :
    (winCheckPhase g).powerUps = g.powerUps := by
  unfold winCheckPhase
  split <;> rfl

@[simp]
theorem winCheckPhase_difficulty (g : GameVars) :
    (winCheckPhase g).currentDifficulty = g.currentDifficulty := by
  unfold winCheckPhase
  split <;> rfl

@[simp]
theorem winCheckPhase_paddle (g : GameVars) :
    (winCheckPhase g).paddle = g.paddle := by
  unfold winCheckPhase
  split <;> rfl

@[simp]
theorem winCheckPhase_balls (g : GameVars) :
    (winCheckPhase g).balls = g.balls := by
  unfold winCheckPhase
  split <;> rfl

/-!
Claim C6: the cached active-brick counter.
-/

/-- Helper: a scan that reports no hit leaves the grid unchanged. -/
theorem scanBricks_none_eq (ball : Ball) : ∀ (bricks : List Brick),
    (scanBricks ball bricks).2 = none → (scanBricks ball bricks).1 = bricks := by
  intro bricks
  induction bricks with
  | nil => intro _; rfl
  | cons b rest ih =>
    intro h
    by_cases hhit : hitPred ball b
    · have hsc : scanBricks ball (b :: rest) = (damageBrick b :: rest, some b) := by
        unfold scanBricks
        rw [if_pos hhit]
      rw [hsc] at h
      simp at h
    · have hsc : scanBricks ball (b :: rest) =
          (b :: (scanBricks ball rest).1, (scanBricks ball rest).2) := by
        conv_lhs => simp only [scanBricks]
        rw [if_neg hhit]
      rw [hsc] at h
      simp at h
      rw [hsc]
      show b :: (scanBricks ball rest).1 = b :: rest
      rw [ih h]

/-- Helper: a scan that resolves a brick loses one active brick exactly when
the resolved brick is destroyed. -/
theorem scanBricks_some_count (ball : Ball) : ∀ (bricks : List Brick) (hb : Brick),
    (scanBricks ball bricks).2 = some hb →
    (hb.hitsRequired - 1 ≤ 0 →
      countActive (scanBricks ball bricks).1 + 1 = countActive bricks) ∧
    (¬(hb.hitsRequired - 1 ≤ 0) →
      countActive (scanBricks ball bricks).1 = countActive bricks) := by
  intro bricks
  induction bricks with
  | nil => intro hb h; simp [scanBricks] at h
  | cons b rest ih =>
    intro hb h
    by_cases hhit : hitPred ball b
    · have hsc : scanBricks ball (b :: rest) = (damageBrick b :: rest, some b) := by
        unfold scanBricks
        rw [if_pos hhit]
      rw [hsc] at h ⊢
      simp at h
      subst h
      have hact : b.active = true := hhit.1
      constructor
      · intro hdes
        have hd : (damageBrick b).active = false := by
          simp only [damageBrick]
          rw [if_pos hdes]
        simp [countActive, List.countP_cons, hd, hact]
      · intro hdes
        have hd : (damageBrick b).active = b.active := by
          simp only [damageBrick]
          rw [if_neg hdes]
        simp [countActive, List.countP_cons, hd, hact]
    · have hsc : scanBricks ball (b :: rest) =
          (b :: (scanBricks ball rest).1, (scanBricks ball rest).2) := by
        conv_lhs => simp only [scanBricks]
        rw [if_neg hhit]
      rw [hsc] at h ⊢
      simp at h
      have hrec := ih hb h
      constructor
      · intro hdes
        have h1 := hrec.1 hdes
        simp [countActive, List.countP_cons] at h1 ⊢
        omega
      · intro hdes
        have h1 := hrec.2 hdes
        simp [countActive, List.countP_cons] at h1 ⊢
        omega

/-- Helper: brick resolution keeps the counter equal to the number of
active bricks. -/
theorem HandleBrickCollision_inv (g : GameVars) (ball : Ball) (r : Rng)
    (h : g.activeBricks = (countActive g.bricks : ℤ)) :
    (HandleBrickCollision g ball r).1.activeBricks =
      (countActive (HandleBrickCollision g ball r).1.bricks : ℤ) := by
  cases hscan : (scanBricks ball g.bricks).2 with
  | none =>
    simp only [HandleBrickCollision, hscan]
    rw [scanBricks_none_eq ball g.bricks hscan]
    exact h
  | some hb =>
    have hc := scanBricks_some_count ball g.bricks hb hscan
    simp only [HandleBrickCollision, hscan]
    split
    next hdes =>
      have h1 := hc.1 hdes
      rw [SpawnPowerUp_activeBricks, SpawnPowerUp_bricks]
      simp only []
      omega
    next hdes =>
      have h1 := hc.2 hdes
      simp only []
      omega

/-- Helper: the ball loop keeps the counter equal to the number of active
bricks. -/
theorem processBalls_inv : ∀ (balls : List Ball) (g : GameVars) (r : Rng),
    g.activeBricks = (countActive g.bricks : ℤ) →
    (processBalls g r balls).2.1.activeBricks =
      (countActive (processBalls g r balls).2.1.bricks : ℤ) := by
  intro balls
  induction balls with
  | nil => intro g r h; exact h
  | cons ball rest ih =>
    intro g r h
    unfold processBalls
    split
    · exact ih _ _ (HandleBrickCollision_inv g _ _ h)
    · exact ih g r h

/-- Helper: the countdown phase either keeps the state or sets GAME_OVER. -/
theorem timerPhase_state (g : GameVars) (dt : ℚ) (r : Rng) :
    (timerPhase g dt r).1.currentState = g.currentState ∨
      (timerPhase g dt r).1.currentState = GameState.GAME_OVER := by
  simp only [timerPhase]
  split
  · split
    · right; rfl
    · left; rfl
  · left; rfl

/-- Helper: the life-loss phase either keeps the state or sets GAME_OVER. -/
theorem lifeLossPhase_state (g : GameVars) (any : Bool) (r : Rng) :
    (lifeLossPhase g any r).1.currentState = g.currentState ∨
      (lifeLossPhase g any r).1.currentState = GameState.GAME_OVER := by
  simp only [lifeLossPhase]
  split
  · left; rfl
  · split
    · right; rfl
    · left; rfl

/-- Helper: the PLAYING body ends with the win check applied to a state
whose status is the original one or GAME_OVER and whose counter matches its
active bricks whenever the input state did. -/
theorem playingStep_pre_win (g : GameVars) (inp : Input) (r : Rng) :
    ∃ g4 : GameVars, (playingStep g inp r).1 = winCheckPhase g4 ∧
      (g4.currentState = g.currentState ∨ g4.currentState = GameState.GAME_OVER) ∧
      (g.activeBricks = (countActive g.bricks : ℤ) →
        g4.activeBricks = (countActive g4.bricks : ℤ)) := by
  refine ⟨_, rfl, ?_, ?_⟩
  · simp only [UpdatePowerUps_state, movingBrickPhase_state]
    rcases lifeLossPhase_state {(processBalls (paddleMovePhase (timerPhase g inp.frameTime r).1 inp)
        (timerPhase g inp.frameTime r).2 (paddleMovePhase (timerPhase g inp.frameTime r).1 inp).balls).2.1 with
        balls := (processBalls (paddleMovePhase (timerPhase g inp.frameTime r).1 inp)
          (timerPhase g inp.frameTime r).2 (paddleMovePhase (timerPhase g inp.frameTime r).1 inp).balls).1}
      (processBalls (paddleMovePhase (timerPhase g inp.frameTime r).1 inp)
        (timerPhase g inp.frameTime r).2 (paddleMovePhase (timerPhase g inp.frameTime r).1 inp).balls).2.2.2
      (processBalls (paddleMovePhase (timerPhase g inp.frameTime r).1 inp)
        (timerPhase g inp.frameTime r).2 (paddleMovePhase (timerPhase g inp.frameTime r).1 inp).balls).2.2.1
      with hll | hll
    · rw [hll]
      simp only [processBalls_state]
      rcases timerPhase_state g inp.frameTime r with ht | ht
      · left
        rw [show (paddleMovePhase (timerPhase g inp.frameTime r).1 inp).currentState =
          (timerPhase g inp.frameTime r).1.currentState from rfl, ht]
      · right
        rw [show (paddleMovePhase (timerPhase g inp.frameTime r).1 inp).currentState =
          (timerPhase g inp.frameTime r).1.currentState from rfl, ht]
    · right
      rw [hll]
  · intro h
    simp only [UpdatePowerUps_bricks, UpdatePowerUps_activeBricks,
      movingBrickPhase_activeBricks, movingBrickPhase_countActive,
      lifeLossPhase_bricks, lifeLossPhase_activeBricks]
    refine processBalls_inv _ _ _ ?_
    show (timerPhase g inp.frameTime r).1.activeBricks =
      (countActive (timerPhase g inp.frameTime r).1.bricks : ℤ)
    rw [timerPhase_bricks, timerPhase_activeBricks]
    exact h

/-- Helper: the PLAYING body keeps the counter equal to the number of
active bricks. -/
theorem playingStep_inv (g : GameVars) (inp : Input) (r : Rng)
    (h : g.activeBricks = (countActive g.bricks : ℤ)) :
    (playingStep g inp r).1.activeBricks =
      (countActive (playingStep g inp r).1.bricks : ℤ) := by
  obtain ⟨g4, hps, _, hinv4⟩ := playingStep_pre_win g inp r
  rw [hps, winCheckPhase_activeBricks, winCheckPhase_bricks]
  exact hinv4 h

/-- Helper: reduction of UpdateGame in the PLAYING state. -/
theorem UpdateGame_playing (perm : List Nat) (g : GameVars) (inp : Input) (r : Rng)
    (hst : g.currentState = GameState.PLAYING) :
    UpdateGame perm g inp r =
      (if inp.bPressed then
        ({(if inp.pPressed then {g with paused := !g.paused} else g) with
          currentState := GameState.MENU, selectedMenuOption := 0, paused := false,
          powerUps := []}, r)
      else if (if inp.pPressed then {g with paused := !g.paused} else g).paused then
        ((if inp.pPressed then {g with paused := !g.paused} else g), r)
      else playingStep (if inp.pPressed then {g with paused := !g.paused} else g) inp r) := by
  unfold UpdateGame
  rw [hst]

/-- Helper: the win check fires exactly on a nonpositive counter when the
incoming state is not already YOU_WIN. -/
theorem winCheckPhase_youwin (g : GameVars) (h : g.currentState ≠ GameState.YOU_WIN) :
    ((winCheckPhase g).currentState = GameState.YOU_WIN ↔
      (winCheckPhase g).activeBricks ≤ 0) := by
  unfold winCheckPhase
  split
  next hc => simpa using hc
  next hc => exact iff_of_false h hc

/-- C6: the cached active-brick counter equals the number of active bricks
after level setup (for any shuffle permutation) and after every brick
resolution and every PLAYING tick; and an unpaused PLAYING tick that stays
in the game ends in YOU_WIN exactly when the counter has reached zero. -/
theorem C6_active_brick_count :
    (∀ (diff : Difficulty) (perm : List Nat) (g : GameVars) (r : Rng),
      perm.Perm (List.range (activeRowsFor diff * BRICKS_PER_ROW)) →
      (SetupLevel diff perm g r).1.activeBricks =
        (countActive (SetupLevel diff perm g r).1.bricks : ℤ)) ∧
    (∀ (g : GameVars) (ball : Ball) (r : Rng),
      g.activeBricks = (countActive g.bricks : ℤ) →
      (HandleBrickCollision g ball r).1.activeBricks =
        (countActive (HandleBrickCollision g ball r).1.bricks : ℤ)) ∧
    (∀ (perm : List Nat) (g : GameVars) (inp : Input) (r : Rng),
      g.currentState = GameState.PLAYING →
      g.activeBricks = (countActive g.bricks : ℤ) →
      (UpdateGame perm g inp r).1.activeBricks =
        (countActive (UpdateGame perm g inp r).1.bricks : ℤ)) ∧
    (∀ (perm : List Nat) (g : GameVars) (inp : Input) (r : Rng),
      g.currentState = GameState.PLAYING → g.paused = false →
      inp.pPressed = false → inp.bPressed = false →
      g.activeBricks = (countActive g.bricks : ℤ) →
      ((UpdateGame perm g inp r).1.currentState = GameState.YOU_WIN ↔
        (UpdateGame perm g inp r).1.activeBricks = 0)) := by
  refine ⟨?_, HandleBrickCollision_inv, ?_, ?_⟩
  · intro diff perm g r hperm
    obtain ⟨d, _, _, _, hinv⟩ := SetupLevel_counts diff perm g r hperm
    exact hinv
  · intro perm g inp r hst hinv
    rw [UpdateGame_playing perm g inp r hst]
    have hinv1 : (if inp.pPressed then {g with paused := !g.paused} else g).activeBricks =
        (countActive (if inp.pPressed then {g with paused := !g.paused} else g).bricks : ℤ) := by
      split
      · exact hinv
      · exact hinv
    by_cases hb : inp.bPressed
    · rw [if_pos hb]
      exact hinv1
    · rw [if_neg hb]
      by_cases hpau : (if inp.pPressed then {g with paused := !g.paused} else g).paused = true
      · rw [if_pos hpau]
        exact hinv1
      · rw [if_neg hpau]
        exact playingStep_inv _ inp r hinv1
  · intro perm g inp r hst hpa hkp hkb hinv
    rw [UpdateGame_playing perm g inp r hst, hkp, hkb]
    simp only [Bool.false_eq_true, if_false]
    rw [hpa]
    simp only [Bool.false_eq_true, if_false]
    obtain ⟨g4, hps, hst4, hinv4⟩ := playingStep_pre_win g inp r
    rw [hps]
    have hne : g4.currentState ≠ GameState.YOU_WIN := by
      rcases hst4 with h | h <;> rw [h]
      · rw [hst]
        decide
      · decide
    rw [winCheckPhase_youwin g4 hne, winCheckPhase_activeBricks]
    have hg4 := hinv4 hinv
    omega

/-- Witness for C6 at concrete setup and tick inputs. -/
theorem C6_active_brick_count_witness :
    (SetupLevel Difficulty.EASY (List.range 30) baseVars []).1.activeBricks =
      (countActive (SetupLevel Difficulty.EASY (List.range 30) baseVars []).1.bricks : ℤ) ∧
    (UpdateGame [] baseVars quietInput []).1.activeBricks =
      (countActive (UpdateGame [] baseVars quietInput []).1.bricks : ℤ) ∧
    ((UpdateGame [] baseVars quietInput []).1.currentState = GameState.YOU_WIN ↔
      (UpdateGame [] baseVars quietInput []).1.activeBricks = 0) :=
  ⟨C6_active_brick_count.1 Difficulty.EASY (List.range 30) baseVars [] (List.Perm.refl _),
   C6_active_brick_count.2.2.1 [] baseVars quietInput [] rfl (by decide),
   C6_active_brick_count.2.2.2 [] baseVars quietInput [] rfl rfl rfl rfl (by decide)⟩

/-!
Claim C10: the timer-expiry cascade.
-/

/-- Projections of a ball unchanged by the side-wall check. -/
theorem wallBounceX_frame (b : Ball) :
    (wallBounceX b).position = b.position ∧ (wallBounceX b).radius = b.radius ∧
    (wallBounceX b).speed.y = b.speed.y ∧ (wallBounceX b).active = b.active := by
  unfold wallBounceX
  split <;> exact ⟨rfl, rfl, rfl, rfl⟩

/-- Projections of a ball unchanged by the bottom check. -/
theorem bottomCheck_frame (b : Ball) :
    (bottomCheck b).position = b.position ∧ (bottomCheck b).radius = b.radius ∧
    (bottomCheck b).speed = b.speed := by
  unfold bottomCheck
  split <;> exact ⟨rfl, rfl, rfl⟩

/-- A ball of radius 10 whose integrated position stays strictly below every
brick and which is still moving upward passes the paddle check and the brick
scan untouched: the loop body only integrates it and applies the wall and
bottom checks. -/
theorem ballStep_high (g : GameVars) (ball : Ball) (r : Rng)
    (hrad : ball.radius = 10) (hvy : ball.speed.y < 0)
    (hy1 : (410 : ℚ) < ball.position.y + ball.speed.y)
    (hbricks : ∀ b ∈ g.bricks, 0 ≤ b.rect.height ∧ b.rect.y + b.rect.height ≤ 400) :
    ballStep g ball r = (g, bottomCheck (wallBounce (integrateBall ball)), r) := by
  have h1 := wallBounceX_frame (integrateBall ball)
  have hiy : (integrateBall ball).position.y = ball.position.y + ball.speed.y := rfl
  have hir : (integrateBall ball).radius = ball.radius := rfl
  have hisy : (integrateBall ball).speed.y = ball.speed.y := rfl
  have hwB : wallBounce (integrateBall ball) = wallBounceX (integrateBall ball) := by
    unfold wallBounce
    split
    next hc =>
      rw [h1.1, h1.2.1, hiy, hir, hrad] at hc
      exfalso
      linarith
    next => rfl
  have hb1y : (bottomCheck (wallBounceX (integrateBall ball))).position.y =
      ball.position.y + ball.speed.y := by
    rw [(bottomCheck_frame _).1, h1.1, hiy]
  have hb1r : (bottomCheck (wallBounceX (integrateBall ball))).radius = 10 := by
    rw [(bottomCheck_frame _).2.1, h1.2.1, hir, hrad]
  have hb1vy : (bottomCheck (wallBounceX (integrateBall ball))).speed.y = ball.speed.y := by
    rw [(bottomCheck_frame _).2.2, h1.2.2.1, hisy]
  have hpadd : paddleBounce g.paddle (bottomCheck (wallBounceX (integrateBall ball))) r =
      (bottomCheck (wallBounceX (integrateBall ball)), r) := by
    unfold paddleBounce
    split
    next hc =>
      have hgt := hc.2
      rw [hb1vy] at hgt
      exfalso
      linarith
    next => rfl
  have hmiss : ∀ b ∈ g.bricks,
      ¬ hitPred (bottomCheck (wallBounceX (integrateBall ball))) b := by
    intro b hbm hc
    obtain ⟨-, hh1⟩ := hbricks b hbm
    have hB := hc.2.2.1
    rw [hb1y, hb1r, abs_le] at hB
    linarith [hB.2]
  have hHB : HandleBrickCollision g (bottomCheck (wallBounceX (integrateBall ball))) r =
      (g, bottomCheck (wallBounceX (integrateBall ball)), r, false) := by
    simp only [HandleBrickCollision]
    rw [scanBricks_miss _ _ hmiss]
  simp only [ballStep, hwB, hpadd, hHB]

/-- The ball loop skips a list of inactive balls entirely. -/
theorem processBalls_inactive (g : GameVars) (r : Rng) :
    ∀ balls : List Ball, (∀ b ∈ balls, b.active = false) →
    processBalls g r balls = (balls, g, r, false) := by
  intro balls
  induction balls with
  | nil => intro h; rfl
  | cons ball rest ih =>
    intro h
    have hb : ¬ ball.active = true := by
      rw [h ball (List.mem_cons_self ball rest)]
      simp
    simp only [processBalls]
    rw [if_neg hb, ih (fun x hx => h x (List.mem_cons_of_mem ball hx))]

/-- The ball loop on a single active ball runs the body once and reports an
active ball. -/
theorem processBalls_one (g : GameVars) (r : Rng) (b : Ball) (hb : b.active = true) :
    processBalls g r [b] =
      ([(ballStep g b r).2.1], (ballStep g b r).1, (ballStep g b r).2.2, true) := by
  simp only [processBalls]
  rw [if_pos hb]

/-- The fresh-ball vertical speed is upward and at most 6 in magnitude for
every difficulty. -/
theorem resetSpeedY_bounds (d : Difficulty) :
    -6 ≤ resetSpeedY d ∧ resetSpeedY d < 0 := by
  cases d <;> exact ⟨by norm_num [resetSpeedY, INITIAL_BALL_SPEED_Y],
    by norm_num [resetSpeedY, INITIAL_BALL_SPEED_Y]⟩

/-- Ball reset leaves every game variable except the paddle rectangle and
the ball list unchanged, and keeps the paddle height. -/
theorem ResetBallsAndPaddle_frame (g : GameVars) (r : Rng) :
    (ResetBallsAndPaddle g r).1.currentState = g.currentState ∧
    (ResetBallsAndPaddle g r).1.paused = g.paused ∧
    (ResetBallsAndPaddle g r).1.countdownTimer = g.countdownTimer ∧
    (ResetBallsAndPaddle g r).1.lives = g.lives ∧
    (ResetBallsAndPaddle g r).1.activeBricks = g.activeBricks ∧
    (ResetBallsAndPaddle g r).1.bricks = g.bricks ∧
    (ResetBallsAndPaddle g r).1.powerUps = g.powerUps ∧
    (ResetBallsAndPaddle g r).1.currentDifficulty = g.currentDifficulty ∧
    (ResetBallsAndPaddle g r).1.paddle.rect.height = g.paddle.rect.height :=
  ⟨rfl, rfl, rfl, rfl, rfl, rfl, rfl, rfl, rfl⟩

/-- The fresh ball created by a reset: a single active ball of radius 10
just above the recentered paddle, moving upward at the difficulty speed. -/
theorem ResetBallsAndPaddle_ball (g : GameVars) (r : Rng) :
    ∃ b : Ball, (ResetBallsAndPaddle g r).1.balls = [b] ∧
      b.active = true ∧ b.radius = 10 ∧
      b.position.y = SCREEN_HEIGHT - g.paddle.rect.height - 30 - BALL_RADIUS - 5 ∧
      -6 ≤ b.speed.y ∧ b.speed.y < 0 := by
  obtain ⟨hs1, hs2⟩ := resetSpeedY_bounds g.currentDifficulty
  exact ⟨_, rfl, rfl, rfl, rfl, hs1, hs2⟩

/-- Countdown expiry with at least two lives left: decrement the lives,
deactivate every ball, and reset the balls and the paddle. -/
theorem timerPhase_expiry (g : GameVars) (dt : ℚ) (r : Rng)
    (ht : g.countdownTimer ≤ 0) (hdt : 0 ≤ dt) (hl : 2 ≤ g.lives) :
    timerPhase g dt r =
      ResetBallsAndPaddle
        {g with countdownTimer := g.countdownTimer - dt
              , lives := g.lives - 1
              , balls := g.balls.map (fun b => {b with active := false})} r := by
  simp only [timerPhase]
  rw [if_pos (show g.countdownTimer - dt ≤ 0 by linarith),
    if_neg (show ¬(g.lives - 1 ≤ 0) by omega)]

/-- Countdown expiry on the last life: decrement the lives, deactivate every
ball, and transition to GAME_OVER without touching the timer. -/
theorem timerPhase_expiry_last (g : GameVars) (dt : ℚ) (r : Rng)
    (ht : g.countdownTimer ≤ 0) (hdt : 0 ≤ dt) (hl : g.lives ≤ 1) :
    timerPhase g dt r =
      ({g with countdownTimer := g.countdownTimer - dt
             , lives := g.lives - 1
             , balls := g.balls.map (fun b => {b with active := false})
             , currentState := GameState.GAME_OVER}, r) := by
  simp only [timerPhase]
  rw [if_pos (show g.countdownTimer - dt ≤ 0 by linarith),
    if_pos (show g.lives - 1 ≤ 0 by omega)]

/-- No life is lost when some ball was active during the loop. -/
theorem lifeLossPhase_active (g : GameVars) (r : Rng) :
    lifeLossPhase g true r = (g, r) := by
  simp [lifeLossPhase]

/-- Losing a life with at most one left also sets the game-over state. -/
theorem lifeLossPhase_dead (g : GameVars) (r : Rng) (hl : g.lives ≤ 1) :
    lifeLossPhase g false r =
      ({g with lives := g.lives - 1, currentState := GameState.GAME_OVER}, r) := by
  simp only [lifeLossPhase, Bool.false_eq_true, if_false]
  rw [if_pos (show g.lives - 1 ≤ 0 by omega)]

/-- The win check is inert while active bricks remain. -/
theorem winCheckPhase_noop (g : GameVars) (h : 0 < g.activeBricks) :
    winCheckPhase g = g := by
  unfold winCheckPhase
  rw [if_neg (show ¬(g.activeBricks ≤ 0) by omega)]

/-- Brick movement preserves the vertical extent of every brick. -/
theorem movingBrickPhase_geom (g : GameVars)
    (h : ∀ b ∈ g.bricks, 0 ≤ b.rect.height ∧ b.rect.y + b.rect.height ≤ 400) :
    ∀ b ∈ (movingBrickPhase g).bricks,
      0 ≤ b.rect.height ∧ b.rect.y + b.rect.height ≤ 400 := by
  unfold movingBrickPhase
  split
  · intro b hb
    simp only [List.mem_map] at hb
    obtain ⟨a, ha, rfl⟩ := hb
    have hg := moveBrick_geom a
    rw [hg.1, hg.2]
    exact h a ha
  · exact h

/-- Every phase of the PLAYING body leaves the countdown alone after the
initial subtraction: the tick always ends with timer = timer - frameTime. -/
theorem playingStep_timer (g : GameVars) (inp : Input) (r : Rng) :
    (playingStep g inp r).1.countdownTimer = g.countdownTimer - inp.frameTime := by
  simp only [playingStep, winCheckPhase_timer, UpdatePowerUps_timer,
    movingBrickPhase_timer, lifeLossPhase_timer, processBalls_timer,
    paddleMovePhase_vars, timerPhase_timer]

/-- One quiet tick from an expired-timer state with at least two lives left
decrements the lives once and reestablishes the cascade invariant: the timer
expires again, a life is lost, and the fresh ball keeps the ball loop from
losing a second one. -/
theorem cascade_tick (perm : List Nat) (g : GameVars) (inp : Input) (r : Rng)
    (hg : cascadeInv g) (hk : quietKeys inp) (hl : 2 ≤ g.lives) :
    cascadeInv (UpdateGame perm g inp r).1 ∧
      (UpdateGame perm g inp r).1.lives = g.lives - 1 := by
  obtain ⟨hst, hpa, ht, hl1, hab, hpu, hh0, hh1, hbr⟩ := hg
  obtain ⟨hkp, hkb, hdt⟩ := hk
  rw [UpdateGame_playing perm g inp r hst, hkp, hkb]
  simp only [Bool.false_eq_true, if_false]
  rw [hpa]
  simp only [Bool.false_eq_true, if_false]
  have htp := timerPhase_expiry g inp.frameTime r ht hdt hl
  obtain ⟨fb, hfb, hfa, hfr, hfy, hfs1, hfs2⟩ :=
    ResetBallsAndPaddle_ball
      {g with countdownTimer := g.countdownTimer - inp.frameTime
            , lives := g.lives - 1
            , balls := g.balls.map (fun b => {b with active := false})} r
  have hframe :=
    ResetBallsAndPaddle_frame
      {g with countdownTimer := g.countdownTimer - inp.frameTime
            , lives := g.lives - 1
            , balls := g.balls.map (fun b => {b with active := false})} r
  have hy1 : (410 : ℚ) < fb.position.y + fb.speed.y := by
    have hfy' : fb.position.y = 600 - g.paddle.rect.height - 30 - 10 - 5 := hfy
    rw [hfy']
    linarith
  have hbricksPM :
      ∀ b ∈ (paddleMovePhase
        (ResetBallsAndPaddle
          {g with countdownTimer := g.countdownTimer - inp.frameTime
                , lives := g.lives - 1
                , balls := g.balls.map (fun b => {b with active := false})} r).1
        inp).bricks, 0 ≤ b.rect.height ∧ b.rect.y + b.rect.height ≤ 400 := by
    rw [(paddleMovePhase_vars _ inp).1, hframe.2.2.2.2.2.1]
    exact hbr
  have hbs := ballStep_high
    (paddleMovePhase
      (ResetBallsAndPaddle
        {g with countdownTimer := g.countdownTimer - inp.frameTime
              , lives := g.lives - 1
              , balls := g.balls.map (fun b => {b with active := false})} r).1
      inp)
    fb
    (ResetBallsAndPaddle
      {g with countdownTimer := g.countdownTimer - inp.frameTime
            , lives := g.lives - 1
            , balls := g.balls.map (fun b => {b with active := false})} r).2
    hfr hfs2 hy1 hbricksPM
  simp only [playingStep, htp, paddleMovePhase_vars, hfb, processBalls_one,
    hfa, hbs, lifeLossPhase_active]
  simp only [UpdatePowerUps_nil, winCheckPhase_noop, movingBrickPhase_powerUps,
    movingBrickPhase_activeBricks, paddleMovePhase_vars,
    ResetBallsAndPaddle_frame, hpu, hab]
  constructor
  · refine ⟨?_, ?_, ?_, ?_, ?_, ?_, ?_, ?_, ?_⟩
    · simp only [movingBrickPhase_state, paddleMovePhase_vars,
        ResetBallsAndPaddle_frame, hst]
    · simp only [movingBrickPhase_paused, paddleMovePhase_vars,
        ResetBallsAndPaddle_frame, hpa]
    · simp only [movingBrickPhase_timer, paddleMovePhase_vars,
        ResetBallsAndPaddle_frame]
      linarith
    · simp only [movingBrickPhase_lives, paddleMovePhase_vars,
        ResetBallsAndPaddle_frame]
      omega
    · simp only [movingBrickPhase_activeBricks, paddleMovePhase_vars,
        ResetBallsAndPaddle_frame]
      exact hab
    · simp only [movingBrickPhase_powerUps, paddleMovePhase_vars,
        ResetBallsAndPaddle_frame]
    · simp only [movingBrickPhase_paddle, paddleMovePhase_vars,
        ResetBallsAndPaddle_frame]
      exact hh0
    · simp only [movingBrickPhase_paddle, paddleMovePhase_vars,
        ResetBallsAndPaddle_frame]
      exact hh1
    · refine movingBrickPhase_geom _ ?_
      simp only [paddleMovePhase_vars, ResetBallsAndPaddle_frame]
      exact hbr
  · simp only [movingBrickPhase_lives, paddleMovePhase_vars,
      ResetBallsAndPaddle_frame]

/-- One quiet tick from an expired-timer state on the last life ends in
GAME_OVER: the expiry deactivates every ball and sets the state, the ball
loop is then inert, the no-active-ball branch decrements lives again but
leaves the state at GAME_OVER, and the win check cannot overwrite it while
active bricks remain. -/
theorem cascade_tick_last (perm : List Nat) (g : GameVars) (inp : Input) (r : Rng)
    (hg : cascadeInv g) (hk : quietKeys inp) (hl : g.lives ≤ 1) :
    (UpdateGame perm g inp r).1.currentState = GameState.GAME_OVER := by
  obtain ⟨hst, hpa, ht, hl1, hab, hpu, hh0, hh1, hbr⟩ := hg
  obtain ⟨hkp, hkb, hdt⟩ := hk
  rw [UpdateGame_playing perm g inp r hst, hkp, hkb]
  simp only [Bool.false_eq_true, if_false]
  rw [hpa]
  simp only [Bool.false_eq_true, if_false]
  have htp := timerPhase_expiry_last g inp.frameTime r ht hdt hl
  have hinact : ∀ b ∈ List.map (fun b => ({b with active := false} : Ball)) g.balls,
      b.active = false := by
    intro b hb
    simp only [List.mem_map] at hb
    obtain ⟨a, ha, rfl⟩ := hb
    rfl
  have hpb := processBalls_inactive
    (paddleMovePhase
      {g with countdownTimer := g.countdownTimer - inp.frameTime
            , lives := g.lives - 1
            , balls := g.balls.map (fun b => {b with active := false})
            , currentState := GameState.GAME_OVER} inp)
    r
    (g.balls.map (fun b => {b with active := false})) hinact
  have hside : g.lives - 1 ≤ 1 := by omega
  simp only [playingStep, htp, paddleMovePhase_vars, hpb, lifeLossPhase_dead,
    hside]
  simp only [UpdatePowerUps_nil, winCheckPhase_noop, movingBrickPhase_powerUps,
    movingBrickPhase_activeBricks, movingBrickPhase_state, paddleMovePhase_vars,
    hpu, hab]

set_option maxHeartbeats 1600000 in
/-- C10: the claim as stated is false.  A falling extra-life power-up caught
during the cascade increments the lives in the same tick that the expiry
decremented them: from an unpaused PLAYING state with the countdown expired
and two lives left, with the power-up one step above the paddle, two quiet
ticks (as many as the remaining lives) leave the game still PLAYING with one
life left, not at GAME_OVER. -/
theorem C10_claim_false :
    cascVars2.currentState = GameState.PLAYING ∧ cascVars2.paused = false ∧
    cascVars2.countdownTimer ≤ 0 ∧ cascVars2.lives = 2 ∧
    (runTicks [] [quietInput, quietInput] cascVars2 []).1.currentState =
      GameState.PLAYING ∧
    (runTicks [] [quietInput, quietInput] cascVars2 []).1.lives = 1 := by
  have h1 : UpdateGame [] cascVars2 quietInput [] =
      ({ paddle := {rect := ⟨350, 550, 100, 20⟩, color := WHITE},
         balls := [{ position := ⟨1984/5, 2659/5⟩, speed := ⟨-16/5, -16/5⟩,
                     radius := 10, active := true, color := WHITE }],
         bricks := [brickOne], powerUps := [], score := 0, lives := 2,
         currentState := GameState.PLAYING, paused := false, activeBricks := 1,
         countdownTimer := -7/60, currentDifficulty := Difficulty.EASY,
         currentLevel := 1, selectedMenuOption := 0 }, []) := by
    repeat norm_num [UpdateGame, playingStep, timerPhase,
      paddleMovePhase, processBalls, ballStep, integrateBall, wallBounce,
      wallBounceX, bottomCheck, paddleBounce, lifeLossPhase, movingBrickPhase,
      moveBrick, UpdatePowerUps, UpdatePowerUpsAux, ApplyPowerUp,
      CheckCollisionRecs, winCheckPhase, ResetBallsAndPaddle,
      HandleBrickCollision, scanBricks, hitPred, CheckCollisionCircleRec,
      abs_of_pos, abs_of_neg, abs_of_nonneg, cascVars2, cascPU, baseVars, quietInput, stdPaddle, brickOne, initBrick,
      randValue, drawRaw, SCREEN_WIDTH, SCREEN_HEIGHT, PADDLE_SPEED,
      BALL_RADIUS, POWERUP_SPEED, INITIAL_BALL_SPEED_X, INITIAL_BALL_SPEED_Y,
      BRICK_WIDTH, BRICK_HEIGHT, BRICK_SPACING,
      BRICKS_PER_ROW]
  have h2 : (UpdateGame []
      ({ paddle := {rect := ⟨350, 550, 100, 20⟩, color := WHITE},
         balls := [{ position := ⟨1984/5, 2659/5⟩, speed := ⟨-16/5, -16/5⟩,
                     radius := 10, active := true, color := WHITE }],
         bricks := [brickOne], powerUps := [], score := 0, lives := 2,
         currentState := GameState.PLAYING, paused := false, activeBricks := 1,
         countdownTimer := -7/60, currentDifficulty := Difficulty.EASY,
         currentLevel := 1, selectedMenuOption := 0 } : GameVars)
      quietInput []).1.currentState = GameState.PLAYING ∧
      (UpdateGame []
      ({ paddle := {rect := ⟨350, 550, 100, 20⟩, color := WHITE},
         balls := [{ position := ⟨1984/5, 2659/5⟩, speed := ⟨-16/5, -16/5⟩,
                     radius := 10, active := true, color := WHITE }],
         bricks := [brickOne], powerUps := [], score := 0, lives := 2,
         currentState := GameState.PLAYING, paused := false, activeBricks := 1,
         countdownTimer := -7/60, currentDifficulty := Difficulty.EASY,
         currentLevel := 1, selectedMenuOption := 0 } : GameVars)
      quietInput []).1.lives = 1 := by
    constructor <;>
      (repeat norm_num [UpdateGame, playingStep, timerPhase,
        paddleMovePhase, processBalls, ballStep, integrateBall, wallBounce,
        wallBounceX, bottomCheck, paddleBounce, lifeLossPhase, movingBrickPhase,
        moveBrick, UpdatePowerUps, UpdatePowerUpsAux, ApplyPowerUp,
        CheckCollisionRecs, winCheckPhase, ResetBallsAndPaddle,
        HandleBrickCollision, scanBricks, hitPred, CheckCollisionCircleRec,
        abs_of_pos, abs_of_neg, abs_of_nonneg, quietInput, brickOne, initBrick,
        randValue, drawRaw, SCREEN_WIDTH, SCREEN_HEIGHT, PADDLE_SPEED,
        BALL_RADIUS, POWERUP_SPEED, INITIAL_BALL_SPEED_X, INITIAL_BALL_SPEED_Y,
        BRICK_WIDTH, BRICK_HEIGHT, BRICK_SPACING,
        BRICKS_PER_ROW])
  refine ⟨rfl, rfl, by norm_num [cascVars2, baseVars], rfl, ?_, ?_⟩ <;>
      simp only [runTicks, h1]
  · exact h2.1
  · exact h2.2

/-- C10 (amended): no phase of an unpaused PLAYING tick ever assigns the
countdown timer except the initial subtraction of the frame time (in
particular a timer-expiry life loss does not reset it); and from a quiet
state whose countdown has expired, provided no power-up is in flight, every
further quiet tick with at least two lives left decrements the lives by one
and leaves the countdown expired, and running exactly as many quiet ticks as
there are lives ends in GAME_OVER.  The no-power-up proviso is necessary: a
caught extra-life power-up restores a life mid-cascade. -/
theorem C10_timer_cascade_amended :
    (∀ (perm : List Nat) (g : GameVars) (inp : Input) (r : Rng),
      g.currentState = GameState.PLAYING → g.paused = false →
      inp.pPressed = false → inp.bPressed = false →
      (UpdateGame perm g inp r).1.countdownTimer =
        g.countdownTimer - inp.frameTime) ∧
    (∀ (perm : List Nat) (g : GameVars) (inp : Input) (r : Rng),
      cascadeInv g → quietKeys inp → 2 ≤ g.lives →
      cascadeInv (UpdateGame perm g inp r).1 ∧
        (UpdateGame perm g inp r).1.lives = g.lives - 1) ∧
    (∀ (perm : List Nat) (g : GameVars) (r : Rng) (inps : List Input),
      cascadeInv g → (∀ i ∈ inps, quietKeys i) →
      (inps.length : ℤ) = g.lives →
      (runTicks perm inps g r).1.currentState = GameState.GAME_OVER) := by
  refine ⟨?_, cascade_tick, ?_⟩
  · intro perm g inp r hst hpa hkp hkb
    rw [UpdateGame_playing perm g inp r hst, hkp, hkb]
    simp only [Bool.false_eq_true, if_false]
    rw [hpa]
    simp only [Bool.false_eq_true, if_false]
    exact playingStep_timer g inp r
  · intro perm g r inps
    induction inps generalizing g r with
    | nil =>
      intro hg hk hlen
      exfalso
      have hl1 := hg.2.2.2.1
      simp only [List.length_nil, Nat.cast_zero] at hlen
      omega
    | cons inp rest ih =>
      intro hg hk hlen
      simp only [List.length_cons] at hlen
      cases rest with
      | nil =>
        simp only [runTicks]
        refine cascade_tick_last perm g inp r hg (hk inp (List.mem_cons_self inp [])) ?_
        simp only [List.length_nil] at hlen
        omega
      | cons inp2 tail =>
        have hl2 : 2 ≤ g.lives := by
          have h1 := (inp2 :: tail).length
          simp only [List.length_cons] at hlen
          omega
        have hstep := cascade_tick perm g inp r hg
          (hk inp (List.mem_cons_self inp (inp2 :: tail))) hl2
        simp only [runTicks]
        refine ih _ _ hstep.1 (fun i hi => hk i (List.mem_cons_of_mem inp hi)) ?_
        rw [hstep.2]
        simp only [List.length_cons] at hlen ⊢
        omega

/-- Witness for C10: the tick equation at the quiet base state, and a single
quiet tick from the expired-timer last-life state ending the game. -/
theorem C10_timer_cascade_amended_witness :
    (UpdateGame [] baseVars quietInput []).1.countdownTimer =
      baseVars.countdownTimer - quietInput.frameTime ∧
    (runTicks [] [quietInput] cascVars []).1.currentState =
      GameState.GAME_OVER :=
  ⟨C10_timer_cascade_amended.1 [] baseVars quietInput [] rfl rfl rfl rfl,
   C10_timer_cascade_amended.2.2 [] cascVars [] [quietInput]
     ⟨rfl, rfl, by norm_num [cascVars, baseVars], by norm_num [cascVars, baseVars],
      by norm_num [cascVars, baseVars], rfl,
      by norm_num [cascVars, baseVars, stdPaddle],
      by norm_num [cascVars, baseVars, stdPaddle],
      by
        intro b hb
        simp only [cascVars, baseVars] at hb
        rw [List.mem_singleton] at hb
        subst hb
        constructor <;>
          norm_num [brickOne, initBrick, BRICK_WIDTH, BRICK_HEIGHT,
            BRICK_SPACING, BRICKS_PER_ROW, SCREEN_WIDTH]⟩
     (fun i hi => by
        rw [List.mem_singleton] at hi
        subst hi
        exact ⟨rfl, rfl, by norm_num [quietInput]⟩)
     (by norm_num [cascVars, baseVars])⟩

end Breakout
